import Mathlib

/-! # Transport orchestration of schikin/webrtc

A shallow embedding of the event dispatch loop (`peerconnection_events.go`), the
DTLS role and fingerprint resolution (`dtlsrole.go`, `transport.go`) and the media
transport (`transport_media.go`).

Conventions of the embedding:

* pointers to sub-transports (`*ICETransport`, `*DTLSTransport`) are natural-number
  identities;
* Go maps keyed by such pointers are association lists with at most one entry per key;
* calls into collaborators whose bodies are outside these files (application handlers,
  `startIceConnection`, channel sends, `DTLSTransport.Start`, ...) are recorded, in
  program order, in a list of `Effect`s returned next to the new state;
* log statements are not recorded;
* a runtime panic (nil dereference, index out of range) is the `none` of an `Option`.
-/

namespace Webrtc

/-! ## Enumerations declared outside the embedded files -/

/-- Modelled from the spec: the type `ICEGatheringState` is declared outside the embedded
files; the aggregate gathering state ranges over New, Gathering and Complete. -/
inductive ICEGatheringState where
  | New
  | Gathering
  | Complete
  deriving DecidableEq, Repr

/-- Modelled from the spec: the type `ICETransportState` is declared outside the embedded
files; only `Connected` is distinguished by the embedded code. -/
inductive ICETransportState where
  | New
  | Checking
  | Connected
  | Completed
  | Disconnected
  | Failed
  | Closed
  deriving DecidableEq, Repr

/-- Modelled from the spec: the type `DTLSTransportState` is declared outside the embedded
files; only `Connected` is distinguished by the embedded code. -/
inductive DTLSTransportState where
  | New
  | Connecting
  | Connected
  | Closed
  | Failed
  deriving DecidableEq, Repr

/-- Modelled from the spec: the type `SignalingState` is declared outside the embedded
files; the embedded code names Stable, HaveLocalOffer and HaveRemoteOffer. -/
inductive SignalingState where
  | Stable
  | HaveLocalOffer
  | HaveRemoteOffer
  | HaveLocalPranswer
  | HaveRemotePranswer
  | Closed
  deriving DecidableEq, Repr

/-- The type `TransportState int` of `transport.go`. -/
abbrev TransportState := Nat

/-- The constant `TransportStateNew TransportState = iota + 1`. -/
def TransportStateNew : TransportState := 1

/-- The constant `TransportStateConnecting`. -/
def TransportStateConnecting : TransportState := 2

/-- The constant `TransportStateConnected`. -/
def TransportStateConnected : TransportState := 3

/-- The constant `TransportStateClosed`. -/
def TransportStateClosed : TransportState := 4

/-- Modelled from the spec: the type `ICEGathererState` is declared outside the embedded
files; `transportInitDtls` distinguishes Gathering and Complete. -/
inductive ICEGathererState where
  | New
  | Gathering
  | Complete
  | Closed
  deriving DecidableEq, Repr

/-- Modelled from the spec: the type `RTPTransceiverDirection` is declared outside the
embedded files; a direction is sendrecv, sendonly, recvonly or inactive. -/
inductive RTPTransceiverDirection where
  | Sendrecv
  | Sendonly
  | Recvonly
  | Inactive
  deriving DecidableEq, Repr

/-- Modelled from the spec: the type `SDPSemantics` is declared outside the embedded
files; `openSRTP` names PlanB and UnifiedPlanWithFallback. -/
inductive SDPSemantics where
  | UnifiedPlan
  | PlanB
  | UnifiedPlanWithFallback
  deriving DecidableEq, Repr

/-- Modelled from the spec: the type `RTPCodecType` is declared outside the embedded
files; the value 0 is no known kind. -/
abbrev RTPCodecType := Nat

/-- Modelled from the spec: the function `NewRTPCodecType` is declared outside the embedded
files; it gives the kind of a media name, and 0 for a name that is neither "audio" nor
"video". -/
def NewRTPCodecType (r : String) : RTPCodecType :=
  if r = "audio" then 1 else if r = "video" then 2 else 0

/-- Modelled from the spec: the type `PeerConnectionState` is declared outside the embedded
files; its values are only passed through to the application handler. -/
abbrev PeerConnectionState := Nat

/-- Modelled from the spec: the type `ICECandidate` is declared outside the embedded files;
only its identity matters to the dispatch loop. -/
structure ICECandidate where
  foundation : String
  deriving DecidableEq, Repr

/-! ## Events (`peerconnection_events.go`, lines 3-38) -/

/-- The values received on an event channel of type `chan interface{}`: the event structs of
`peerconnection_events.go`, and `other` for a value of any other dynamic type. A nil
`*ICECandidate` is `none`. -/
inductive Event where
  | dtlsStateEvent (transport : Nat) (state : DTLSTransportState)
  | iceStateEvent (transport : Nat) (state : ICETransportState)
  | signalingStateEvent (state : SignalingState)
  | connectionStateEvent (state : PeerConnectionState)
  | transportEvent (transport : Nat) (state : TransportState)
  | iceCandidateEvent (transport : Nat) (candidate : Option ICECandidate)
  | iceGatheringEvent (transport : Nat) (state : ICEGatheringState)
  | terminationEvent
  | other
  deriving DecidableEq, Repr

/-! ## Strings and session descriptions (library collaborators) -/

/-- The Go library function `strings.Split(s, sep)` for a separator of one character, on
the characters of `s`: the pieces between consecutive occurrences of `sep`; a text without
`sep` gives the single piece `s` (also when `s` is empty). -/
def splitChars (sep : Char) : List Char → List (List Char)
  | [] => [[]]
  | c :: cs =>
    if c = sep then [] :: splitChars sep cs
    else
      match splitChars sep cs with
      | [] => [[c]]
      | p :: ps => (c :: p) :: ps

/-- The call `strings.Split(s, " ")`. -/
def stringsSplit (s : String) : List String :=
  (splitChars ' ' s.data).map String.mk

/-- The attribute `sdp.Attribute` of a description: a key and a value. -/
structure Attribute where
  Key : String
  Value : String
  deriving DecidableEq, Repr

/-- The method `Attribute(key)` of `sdp.SessionDescription` and `sdp.MediaDescription` on
the attribute list: the value of the first attribute with that key and `true`, or the
empty string and `false`. -/
def attributeLookup (attrs : List Attribute) (key : String) : String × Bool :=
  match attrs with
  | [] => ("", false)
  | a :: rest => if a.Key = key then (a.Value, true) else attributeLookup rest key

/-- The part of `sdp.SessionDescription` read by the embedded code. -/
structure SessionDescription where
  Attributes : List Attribute
  deriving DecidableEq, Repr

/-- The part of `sdp.MediaDescription` read by the embedded code: the media name
(`MediaName.Media`) and the attributes. -/
structure MediaDescription where
  Media : String
  Attributes : List Attribute
  deriving DecidableEq, Repr

/-- The method `SessionDescription.Attribute`. -/
def SessionDescription.Attribute (s : SessionDescription) (key : String) : String × Bool :=
  attributeLookup s.Attributes key

/-- The method `MediaDescription.Attribute`. -/
def MediaDescription.Attribute (m : MediaDescription) (key : String) : String × Bool :=
  attributeLookup m.Attributes key

/-! ## DTLS roles and parameters (`dtlsrole.go`) -/

/-- The type `DTLSRole byte` of `dtlsrole.go`. -/
abbrev DTLSRole := Nat

/-- The constant `DTLSRoleAuto DTLSRole = iota + 1`. -/
def DTLSRoleAuto : DTLSRole := 1

/-- The constant `DTLSRoleClient`. -/
def DTLSRoleClient : DTLSRole := 2

/-- The constant `DTLSRoleServer`. -/
def DTLSRoleServer : DTLSRole := 3

/-- The method `DTLSRole.String`; `unknownStr` is the text "unknown". -/
def DTLSRole.String (r : DTLSRole) : String :=
  if r = DTLSRoleAuto then "auto"
  else if r = DTLSRoleClient then "client"
  else if r = DTLSRoleServer then "server"
  else "unknown"

/-- The struct `DTLSFingerprint`. -/
structure DTLSFingerprint where
  Algorithm : String
  Value : String
  deriving DecidableEq, Repr

/-- The struct `DTLSParameters`. -/
structure DTLSParameters where
  Role : DTLSRole
  Fingerprints : List DTLSFingerprint
  deriving DecidableEq, Repr

/-- The result of a Go function returning `(*T, error)`: `ok v` is a non-nil value with a
nil error, `error msg` is a nil value with the error `fmt.Errorf(msg)`. -/
inductive GoResult (α : Type) where
  | ok (v : α)
  | error (msg : String)
  deriving DecidableEq, Repr

/-- The function `dtlsRoleFromSetupAttribute` (`dtlsrole.go`, lines 98-107). -/
def dtlsRoleFromSetupAttribute (attr : String) : DTLSRole :=
  if attr = "active" then DTLSRoleClient
  else if attr = "passive" then DTLSRoleServer
  else DTLSRoleAuto

/-- The common tail of the three parameter functions, from `strings.Split` on: the check
`len(parts) != 2` and the construction of the result (`dtlsrole.go`, lines 52-63 and 81-92;
`transport.go`, lines 195-206). -/
def dtlsParamsFromFingerprint (role : DTLSRole) (fingerprint : String) :
    GoResult DTLSParameters :=
  match stringsSplit fingerprint with
  | [p0, p1] => .ok { Role := role, Fingerprints := [{ Algorithm := p0, Value := p1 }] }
  | _ => .error "invalid fingerprint"

/-- The function `dtlsParamsFromSession` (`dtlsrole.go`, lines 38-64). -/
def dtlsParamsFromSession (s : SessionDescription) : GoResult DTLSParameters :=
  let setupAttribute := (s.Attribute "setup").1
  let role := dtlsRoleFromSetupAttribute setupAttribute
  let (fingerprint, haveFingerprint) := s.Attribute "fingerprint"
  if !haveFingerprint then .error "could not find fingerprint"
  else dtlsParamsFromFingerprint role fingerprint

/-- The function `dtlsParamsFromMediaSection` (`dtlsrole.go`, lines 67-93). -/
def dtlsParamsFromMediaSection (mediaSection : MediaDescription) :
    GoResult DTLSParameters :=
  let setupAttribute := (mediaSection.Attribute "setup").1
  let role := dtlsRoleFromSetupAttribute setupAttribute
  let (fingerprint, haveFingerprint) := mediaSection.Attribute "fingerprint"
  if !haveFingerprint then .error "could not find fingerprint"
  else dtlsParamsFromFingerprint role fingerprint

/-- The function `dtlsRoleFromSdp` (`transport.go`, lines 160-176). -/
def dtlsRoleFromSdp (media : MediaDescription) (sess : SessionDescription) : DTLSRole :=
  let (setupAttribute, setupFound) := media.Attribute "setup"
  let (setupAttribute, setupFound) :=
    if !setupFound then sess.Attribute "setup" else (setupAttribute, setupFound)
  if !setupFound then DTLSRoleAuto
  else dtlsRoleFromSetupAttribute setupAttribute

/-! ## Transceivers (`rtptransceiver.go`) and secure sessions -/

/-- Modelled from the spec: the type `Track` is declared outside the embedded files; the
embedded code reads its SSRC and payload type. -/
structure Track where
  ssrc : Nat := 0
  payloadType : Nat := 0
  deriving DecidableEq, Repr

/-- Modelled from the spec: the type `RTPSender` is declared outside the embedded files;
`sender` is its identity, `track` its assigned outbound track (`none` when nil) and `stopErr`
the error its `Stop` returns, if any. -/
structure RTPSender where
  sender : Nat := 0
  track : Option Track := none
  stopErr : Option String := none
  deriving DecidableEq, Repr

/-- Modelled from the spec: the type `RTPReceiver` is declared outside the embedded files;
`receiver` is its identity and `stopErr` the error its `Stop` returns, if any. -/
structure RTPReceiver where
  receiver : Nat := 0
  stopErr : Option String := none
  deriving DecidableEq, Repr

/-- The struct `RTPTransceiver` (`rtptransceiver.go`, lines 11-34). A nil pointer field is
`none`. -/
structure RTPTransceiver where
  Sender : Option RTPSender := none
  Receiver : Option RTPReceiver := none
  Direction : RTPTransceiverDirection := .Inactive
  stopped : Bool := false
  kind : RTPCodecType := 0
  localDtlsRole : DTLSRole := 0
  remoteDtlsRole : DTLSRole := 0
  localBundled : Bool := false
  remoteBundled : Bool := false
  bundled : Bool := false
  dtlsRole : DTLSRole := 0
  Mid : String := ""
  LocalMediaDescription : Option MediaDescription := none
  RemoteMediaDescription : Option MediaDescription := none
  deriving DecidableEq, Repr

/-- The local struct `incomingTrack` of `openSRTP` (`transport_media.go`, lines 147-152). -/
structure IncomingTrack where
  kind : RTPCodecType
  label : String
  id : String
  ssrc : Nat
  deriving DecidableEq, Repr

/-- Modelled from the spec: the write stream of a secure control session is declared
outside the embedded files; `writeErr` is the error its `Write` returns, if any. -/
structure WriteStream where
  writeErr : Option String := none
  deriving DecidableEq, Repr

/-- Modelled from the spec: the secure control session is declared outside the embedded
files; `openWriteStream` is what its `OpenWriteStream` returns. -/
structure SRTCPSession where
  openWriteStream : GoResult WriteStream
  deriving DecidableEq, Repr

/-- Modelled from the spec: the type `DTLSTransport` is declared outside the embedded
files; `iceTransport` is the identity of its ICE sub-transport and `getSRTCPSession` is
what its `getSRTCPSession` returns: an error as long as no secure session exists. -/
structure DTLSTransport where
  transport : Nat := 0
  iceTransport : Nat := 0
  getSRTCPSession : GoResult SRTCPSession := .error "the DTLS transport has not started yet"
  deriving DecidableEq, Repr

/-! ## Observable calls -/

/-- A call made by the embedded code into a collaborator whose body is outside the embedded
files, or a value sent on a channel. -/
inductive Effect where
  /-- The call `pc.onICEGatheringStateHandler(state)`. -/
  | onICEGatheringStateHandler (state : ICEGatheringState)
  /-- The call `pc.onICECandidateHandler(candidate)`; `none` is the nil candidate. -/
  | onICECandidateHandler (candidate : Option ICECandidate)
  /-- The call `pc.onSignalingStateChangeHandler(state)`. -/
  | onSignalingStateChangeHandler (state : SignalingState)
  /-- The call `pc.onPeerConnectionStateHandler(state)`. -/
  | onPeerConnectionStateHandler (state : PeerConnectionState)
  /-- The call `pc.startIceConnection()`. -/
  | startIceConnection
  /-- The call `pc.startIceGathering()`. -/
  | startIceGathering
  /-- The send `t.getPeerConnection().events <- evt`. -/
  | pcEvents (evt : Event)
  /-- The call `go t.getDtlsTransport().Start(*dtlsParams)`. -/
  | dtlsStart (params : DTLSParameters)
  /-- The call `writeStream.Write(raw)`. -/
  | streamWrite (raw : List Nat)
  /-- The call `tranceiver.Sender.Send(...)` with the SSRC and payload type of its track. -/
  | senderSend (sender : Nat) (ssrc : Nat) (payloadType : Nat)
  /-- The call `go startReceiver(incoming, receiver)`; `none` is a nil receiver. -/
  | startReceiver (incoming : IncomingTrack) (receiver : Option RTPReceiver)
  /-- The call `pc.AddTransceiver(kind, RtpTransceiverInit{Direction: direction})`. -/
  | addTransceiver (kind : RTPCodecType) (direction : RTPTransceiverDirection)
  /-- The call `go t.drainSRTP()`. -/
  | drainSRTP
  /-- The call `t.Sender.Stop()`. -/
  | senderStop (sender : Nat)
  /-- The call `t.Receiver.Stop()`. -/
  | receiverStop (receiver : Nat)
  deriving DecidableEq, Repr

/-- The method `RTPTransceiver.Stop` (`rtptransceiver.go`, lines 54-67): the returned error
(`none` for nil) and the calls made. -/
def RTPTransceiver.Stop (t : RTPTransceiver) : Option String × List Effect :=
  let senderStopped : Option String × List Effect :=
    match t.Sender with
    | some sender => (sender.stopErr, [Effect.senderStop sender.sender])
    | none => (none, [])
  match senderStopped.1 with
  | some err => (some err, senderStopped.2)
  | none =>
    let receiverStopped : Option String × List Effect :=
      match t.Receiver with
      | some receiver => (receiver.stopErr, [Effect.receiverStop receiver.receiver])
      | none => (none, [])
    match receiverStopped.1 with
    | some err => (some err, senderStopped.2 ++ receiverStopped.2)
    | none => (none, senderStopped.2 ++ receiverStopped.2)

/-! ## The connection (`peerconnection_events.go`) -/

/-- The assignment `m[k] = v` on a Go map held as an association list: the entry of `k` is
overwritten, or a new entry is added. -/
def mapSet {β : Type} (m : List (Nat × β)) (k : Nat) (v : β) : List (Nat × β) :=
  match m with
  | [] => [(k, v)]
  | (k0, v0) :: rest => if k0 = k then (k, v) :: rest else (k0, v0) :: mapSet rest k v

/-- The read `m[k]` with its presence flag. -/
def mapGet {β : Type} (m : List (Nat × β)) (k : Nat) : Option β :=
  match m with
  | [] => none
  | (k0, v0) :: rest => if k0 = k then some v0 else mapGet rest k

/-- The fields of `PeerConnection` used by the embedded files. A handler field holds
`true` when the Go field is a non-nil function. `currentLocalDescription` is `none` for
a nil pointer and otherwise holds its `parsed` description. `SDPSemantics` is
`pc.configuration.SDPSemantics`, `remoteDescriptionIsPlanB` is the value of
`pc.descriptionIsPlanB(pc.RemoteDescription())` and `rtpTransceivers` is the list returned
by `pc.GetTransceivers()`. -/
structure PeerConnection where
  iceGatheringState : ICEGatheringState := .New
  iceGatheringStates : List (Nat × ICEGatheringState) := []
  iceStates : List (Nat × ICETransportState) := []
  dtlsStates : List (Nat × DTLSTransportState) := []
  signalingState : SignalingState := .Stable
  onICEGatheringStateHandler : Bool := false
  onICECandidateHandler : Bool := false
  onSignalingStateChangeHandler : Bool := false
  onPeerConnectionStateHandler : Bool := false
  currentLocalDescription : Option SessionDescription := none
  SDPSemantics : SDPSemantics := .UnifiedPlan
  remoteDescriptionIsPlanB : Bool := false
  rtpTransceivers : List RTPTransceiver := []
  deriving DecidableEq, Repr

/-- The loop `for _, knownState := range pc.iceGatheringStates` of
`handleIceGatheringTransition` (lines 49-53): `true` when the loop runs to its end, `false`
when it returns from the function at a state other than Complete. -/
def allKnownComplete : List (Nat × ICEGatheringState) → Bool
  | [] => true
  | (_, knownState) :: rest =>
    if knownState ≠ ICEGatheringState.Complete then false else allKnownComplete rest

/-- The method `handleIceGatheringTransition` (lines 40-79). -/
def PeerConnection.handleIceGatheringTransition (pc : PeerConnection) (_transport : Nat)
    (state : ICEGatheringState) : PeerConnection × List Effect :=
  if state = pc.iceGatheringState then (pc, [])
  else
    match state with
    | .Complete =>
      if allKnownComplete pc.iceGatheringStates then
        ({ pc with iceGatheringState := state },
          (if pc.onICEGatheringStateHandler then [Effect.onICEGatheringStateHandler state]
            else [])
          ++ (if pc.onICECandidateHandler then [Effect.onICECandidateHandler none] else [])
          ++ [Effect.startIceConnection])
      else (pc, [])
    | .Gathering =>
      ({ pc with iceGatheringState := state },
        if pc.onICEGatheringStateHandler then [Effect.onICEGatheringStateHandler state]
        else [])
    | .New => (pc, [])

/-- The method `handleIceStateTransition` (lines 81-84): an empty body. -/
def PeerConnection.handleIceStateTransition (pc : PeerConnection) (_transport : Nat)
    (_state : ICETransportState) : PeerConnection × List Effect :=
  (pc, [])

/-- The method `handleDtlsStateTransition` (lines 86-88): an empty body. -/
def PeerConnection.handleDtlsStateTransition (pc : PeerConnection) (_transport : Nat)
    (_state : DTLSTransportState) : PeerConnection × List Effect :=
  (pc, [])

/-- The method `handleSignalingState` (lines 90-105). Go cases do not fall through: only
the case Stable has a body. -/
def PeerConnection.handleSignalingState (pc : PeerConnection) (state : SignalingState) :
    PeerConnection × List Effect :=
  ({ pc with signalingState := state },
    (if pc.onSignalingStateChangeHandler then [Effect.onSignalingStateChangeHandler state]
      else [])
    ++ (match state with
        | .HaveLocalOffer => []
        | .HaveRemoteOffer => []
        | .Stable => [Effect.startIceGathering]
        | _ => []))

/-- The method `handleConnectionState` (lines 107-111). -/
def PeerConnection.handleConnectionState (pc : PeerConnection)
    (state : PeerConnectionState) : PeerConnection × List Effect :=
  (pc, if pc.onPeerConnectionStateHandler then [Effect.onPeerConnectionStateHandler state]
       else [])

/-- The method `handleIceCandidate` (lines 113-117). -/
def PeerConnection.handleIceCandidate (pc : PeerConnection) (_transport : Nat)
    (candidate : Option ICECandidate) : PeerConnection × List Effect :=
  if candidate ≠ none ∧ pc.onICECandidateHandler then
    (pc, [Effect.onICECandidateHandler candidate])
  else (pc, [])

/-- One iteration of the loop of `startEventLoop` (lines 124-197) on the received value:
the new connection, the calls made, and `false` when the loop returns. -/
def PeerConnection.dispatch (pc : PeerConnection) (untypedEvt : Event) :
    PeerConnection × List Effect × Bool :=
  match untypedEvt with
  | .iceStateEvent transport state =>
    let pc1 := { pc with iceStates := mapSet pc.iceStates transport state }
    let r := pc1.handleIceStateTransition transport state
    (r.1, r.2, true)
  | .dtlsStateEvent transport state =>
    let pc1 := { pc with dtlsStates := mapSet pc.dtlsStates transport state }
    let r := pc1.handleDtlsStateTransition transport state
    (r.1, r.2, true)
  | .iceGatheringEvent transport state =>
    let pc1 := { pc with iceGatheringStates := mapSet pc.iceGatheringStates transport state }
    let r := pc1.handleIceGatheringTransition transport state
    (r.1, r.2, true)
  | .iceCandidateEvent transport candidate =>
    let r := pc.handleIceCandidate transport candidate
    (r.1, r.2, true)
  | .signalingStateEvent state =>
    let r := pc.handleSignalingState state
    (r.1, r.2, true)
  | .terminationEvent => (pc, [], false)
  | _ => (pc, [], true)

/-- The loop of `startEventLoop` (lines 119-200) on the values delivered, in order, on
`pc.events`: the connection and the calls made when the loop has returned or has consumed
every value delivered. -/
def PeerConnection.startEventLoop (pc : PeerConnection) : List Event →
    PeerConnection × List Effect
  | [] => (pc, [])
  | untypedEvt :: rest =>
    match pc.dispatch untypedEvt with
    | (pc1, calls, true) =>
      let r := PeerConnection.startEventLoop pc1 rest
      (r.1, calls ++ r.2)
    | (pc1, calls, false) => (pc1, calls)

/-- The gathering-state events `(transport, state)` as values on `pc.events`. -/
def gatheringEvents (evs : List (Nat × ICEGatheringState)) : List Event :=
  evs.map (fun e => Event.iceGatheringEvent e.1 e.2)

/-- The connection after the dispatch loop has processed one gathering-state event. -/
def gatherStep (pc : PeerConnection) (e : Nat × ICEGatheringState) : PeerConnection :=
  (pc.dispatch (Event.iceGatheringEvent e.1 e.2)).1

/-- Every tracked transport's last-known gathering state is Complete. -/
def PeerConnection.allTransportsComplete (pc : PeerConnection) : Prop :=
  ∀ kv ∈ pc.iceGatheringStates, kv.2 = ICEGatheringState.Complete

instance (pc : PeerConnection) : Decidable pc.allTransportsComplete := by
  unfold PeerConnection.allTransportsComplete; infer_instance

/-! ## The media transport (`transport.go`, `transport_media.go`) -/

/-- The struct `MediaTransport` (`transport_media.go`, lines 12-29). The owning connection
`pc` is passed to the functions below as an argument; the channel `events` is the list of
values the event loop is run on. -/
structure MediaTransport where
  DTLSRole : DTLSRole := 0
  DTLSTransport : Option DTLSTransport := none
  RTPTransceivers : List RTPTransceiver := []
  State : TransportState := 0
  state : TransportState := 0
  deriving DecidableEq, Repr

/-- The method `getDtlsRole` (lines 368-370). -/
def MediaTransport.getDtlsRole (t : MediaTransport) : Webrtc.DTLSRole :=
  t.DTLSRole

/-- The method `setDtlsRole` (lines 372-374). -/
def MediaTransport.setDtlsRole (t : MediaTransport) (role : Webrtc.DTLSRole) :
    MediaTransport :=
  { t with DTLSRole := role }

/-- The method `getDtlsTransport` (lines 360-362). -/
def MediaTransport.getDtlsTransport (t : MediaTransport) : Option Webrtc.DTLSTransport :=
  t.DTLSTransport

/-- The method `setDtlsTransport` (lines 356-358). -/
def MediaTransport.setDtlsTransport (t : MediaTransport)
    (trans : Option Webrtc.DTLSTransport) :
    MediaTransport :=
  { t with DTLSTransport := trans }

/-- The method `getLocalMediaDescription` (lines 108-112): `none` when the index
expression `t.RTPTransceivers[0]` panics; the inner option is the pointer read. -/
def MediaTransport.getLocalMediaDescription (t : MediaTransport) :
    Option (Option MediaDescription) :=
  match t.RTPTransceivers with
  | [] => none
  | transceiver :: _ => some transceiver.LocalMediaDescription

/-- The method `getRemoteMediaDescription` (lines 114-118): `none` when the index
expression `t.RTPTransceivers[0]` panics; the inner option is the pointer read. -/
def MediaTransport.getRemoteMediaDescription (t : MediaTransport) :
    Option (Option MediaDescription) :=
  match t.RTPTransceivers with
  | [] => none
  | transceiver :: _ => some transceiver.RemoteMediaDescription

/-- The method `GetMids` (lines 63-71). -/
def MediaTransport.GetMids (t : MediaTransport) : List String :=
  t.RTPTransceivers.foldl (fun ret trans => ret ++ [trans.Mid]) []

/-- The function `transportGetDtlsParams` (`transport.go`, lines 178-207). The result is
`none` when the function panics: `currentLocalDescription` is nil, there is no first
transceiver, or its local media description is nil. -/
def transportGetDtlsParams (pc : PeerConnection) (t : MediaTransport) :
    Option (GoResult DTLSParameters) :=
  match pc.currentLocalDescription with
  | none => none
  | some sess =>
    match t.getLocalMediaDescription with
    | some (some media) =>
      let (fingerprint, haveFingerprint) := media.Attribute "fingerprint"
      let (fingerprint, haveFingerprint) :=
        if !haveFingerprint then sess.Attribute "fingerprint"
        else (fingerprint, haveFingerprint)
      if !haveFingerprint then some (.error "fingerprint attribute not found")
      else some (dtlsParamsFromFingerprint t.getDtlsRole fingerprint)
    | _ => none

/-- The function `transportIceConnected` (`transport.go`, lines 133-152): the calls made,
or `none` when `transportGetDtlsParams` panics. -/
def transportIceConnected (pc : PeerConnection) (t : MediaTransport) : Option (List Effect) :=
  match transportGetDtlsParams pc t with
  | none => none
  | some (.error _) => some []
  | some (.ok dtlsParams) => some [Effect.dtlsStart dtlsParams]

/-- The function `transportHandleEvent` (`transport.go`, lines 111-131): the returned
boolean and the calls made, or `none` on a panic. -/
def transportHandleEvent (pc : PeerConnection) (t : MediaTransport) (untypedEvt : Event) :
    Option (Bool × List Effect) :=
  match untypedEvt with
  | .iceGatheringEvent transport state =>
    some (true, [Effect.pcEvents (.iceGatheringEvent transport state)])
  | .iceStateEvent transport state =>
    if state = ICETransportState.Connected then
      match transportIceConnected pc t with
      | none => none
      | some calls => some (true, calls ++ [Effect.pcEvents (.iceStateEvent transport state)])
    else some (true, [Effect.pcEvents (.iceStateEvent transport state)])
  | .iceCandidateEvent transport candidate =>
    some (true, [Effect.pcEvents (.iceCandidateEvent transport candidate)])
  | .dtlsStateEvent transport state =>
    some (true, [Effect.pcEvents (.dtlsStateEvent transport state)])
  | .terminationEvent => some (false, [])
  | _ => some (true, [])

/-- The loop of `MediaTransport.eventLoop` (`transport_media.go`, lines 53-61) on the
values delivered, in order, on `t.events`: the calls made when the loop has returned or has
consumed every value delivered, or `none` on a panic. -/
def MediaTransport.eventLoop (pc : PeerConnection) (t : MediaTransport) :
    List Event → Option (List Effect)
  | [] => some []
  | untypedEvt :: rest =>
    match transportHandleEvent pc t untypedEvt with
    | none => none
    | some (false, calls) => some calls
    | some (true, calls) =>
      match MediaTransport.eventLoop pc t rest with
      | none => none
      | some more => some (calls ++ more)

/-- The gatherer state callback wired by `transportInitDtls` (`transport.go`, lines 84-91):
the values it sends on the transport's event channel. -/
def onStateChangeHdlr (iceTransport : Nat) (state : ICEGathererState) : List Event :=
  match state with
  | .Gathering => [Event.iceGatheringEvent iceTransport ICEGatheringState.Gathering]
  | .Complete => [Event.iceGatheringEvent iceTransport ICEGatheringState.Complete]
  | _ => []

/-- The function `transportInitDtls` (`transport.go`, lines 66-109) on the results of
`pc.api.NewICEGatherer` and `pc.api.NewDTLSTransport`: the transport is returned unchanged
when a creation failed, and otherwise with the new DTLS sub-transport set. A failed
`NewDTLSTransport` is taken to return a usable pointer next to its error, so that the
callback assignments of lines 80-99 do not panic. -/
def transportInitDtls (s : MediaTransport) (newICEGatherer : GoResult Nat)
    (newDTLSTransport : GoResult DTLSTransport) : MediaTransport :=
  match newICEGatherer with
  | .error _ => s
  | .ok _ =>
    match newDTLSTransport with
    | .error _ => s
    | .ok dtlsTransport => s.setDtlsTransport (some dtlsTransport)

/-- The function `MediaTransportCreate` (`transport_media.go`, lines 376-390) on the
results of the two creations made by `transportInitDtls`. -/
def MediaTransportCreate (newICEGatherer : GoResult Nat)
    (newDTLSTransport : GoResult DTLSTransport) : MediaTransport :=
  let ret : MediaTransport := {}
  let ret := { ret with DTLSRole := DTLSRoleAuto }
  let ret := { ret with state := TransportStateNew }
  transportInitDtls ret newICEGatherer newDTLSTransport

/-- Modelled from the spec: the type `rtcp.Packet` of the RTCP library; a packet is held as
its bytes. -/
abbrev RTCPPacket := List Nat

/-- The method `WriteRTCP` (`transport_media.go`, lines 84-106) on `marshal`, the library
function `rtcp.Marshal`: the returned error (`none` for nil) and the calls made, or `none`
when `t.DTLSTransport` is nil. -/
def MediaTransport.WriteRTCP (marshal : List RTCPPacket → GoResult (List Nat))
    (t : MediaTransport) (pkts : List RTCPPacket) : Option (Option String × List Effect) :=
  match marshal pkts with
  | .error err => some (some err, [])
  | .ok raw =>
    match t.DTLSTransport with
    | none => none
    | some dtls =>
      match dtls.getSRTCPSession with
      | .error _ => some (none, [])
      | .ok srtcpSession =>
        match srtcpSession.openWriteStream with
        | .error err => some (some ("WriteRTCP failed to open WriteStream: " ++ err), [])
        | .ok writeStream =>
          match writeStream.writeErr with
          | some err => some (some err, [Effect.streamWrite raw])
          | none => some (none, [Effect.streamWrite raw])

/-! ## Secure-session activation (`transport_media.go`, lines 43-51 and 120-276) -/

/-- The library call `strconv.ParseUint(s, 10, 32)`: the value of a non-empty text of
decimal digits below `2 ^ 32`, and `none` for the error otherwise. -/
def parseUint (s : String) : Option Nat :=
  if s.data = [] then none
  else if s.data.all Char.isDigit then
    let v := s.data.foldl (fun acc c => acc * 10 + (c.toNat - 48)) 0
    if v < 2 ^ 32 then some v else none
  else none

/-- The library call `strings.HasPrefix(s, prefix)`. -/
def hasPrefix (s pre : String) : Bool :=
  pre.data.isPrefixOf s.data

/-- The statement `delete(m, k)` on a Go map held as an association list. -/
def mapDelete {β : Type} (m : List (Nat × β)) (k : Nat) : List (Nat × β) :=
  m.filter (fun kv => kv.1 ≠ k)

/-- The collaborators of `openSRTP` whose behaviour is not fixed by the embedded files:
`rangeOrder m` is the order in which a `range` statement visits the entries of the map `m`
(Go leaves it unspecified), and `AddTransceiver` is the result of
`pc.AddTransceiver(kind, RtpTransceiverInit{Direction: direction})` on the connection's
current transceivers. -/
structure Collaborators where
  rangeOrder : List (Nat × IncomingTrack) → List (Nat × IncomingTrack)
  AddTransceiver : List RTPTransceiver → RTPCodecType → RTPTransceiverDirection →
    GoResult RTPTransceiver

/-- The loop over `media.Attributes` of `openSRTP` (lines 166-193) from the map built so
far; `codecType` is `NewRTPCodecType(media.MediaName.Media)`. -/
def scanSSRC (codecType : RTPCodecType) :
    List Attribute → List (Nat × IncomingTrack) → List (Nat × IncomingTrack)
  | [], incomingTracks => incomingTracks
  | attr :: rest, incomingTracks =>
    if codecType = 0 then scanSSRC codecType rest incomingTracks
    else if attr.Key = "ssrc" then
      let split := stringsSplit attr.Value
      match parseUint (split.headD "") with
      | none => scanSSRC codecType rest incomingTracks
      | some ssrc =>
        let labelAndID : String × String :=
          if split.length = 3 ∧ hasPrefix (split.getD 1 "") "msid:" then
            (String.mk ((split.getD 1 "").data.drop 5), split.getD 2 "")
          else ("", "")
        let trackLabel := labelAndID.1
        let trackID := labelAndID.2
        let incomingTracks :=
          mapSet incomingTracks ssrc
            { kind := codecType, label := trackLabel, id := trackID, ssrc := ssrc }
        if trackID ≠ "" ∧ trackLabel ≠ "" then incomingTracks
        else scanSSRC codecType rest incomingTracks
    else scanSSRC codecType rest incomingTracks

/-- The inner loop `for i := range localTransceivers` of `openSRTP` (lines 246-261) for an
incoming kind: the first transceiver that passes the three cases of the switch, with the
list left when it is removed; `none` when the loop ends without a match. -/
def matchTransceiver (kind : RTPCodecType) :
    List RTPTransceiver → Option (RTPTransceiver × List RTPTransceiver)
  | [] => none
  | t :: rest =>
    if kind ≠ t.kind ∨
        (t.Direction ≠ RTPTransceiverDirection.Recvonly ∧
          t.Direction ≠ RTPTransceiverDirection.Sendrecv) ∨
        t.Receiver = none then
      match matchTransceiver kind rest with
      | none => none
      | some (found, left) => some (found, t :: left)
    else some (t, rest)

/-- The outer loop `for ssrc, incoming := range incomingTracks` of `openSRTP`
(lines 245-262) on the entries still to visit: the map and the transceivers left, and the
receivers started. -/
def matchIncoming :
    List (Nat × IncomingTrack) → List (Nat × IncomingTrack) → List RTPTransceiver →
      List (Nat × IncomingTrack) × List RTPTransceiver × List Effect
  | [], incomingTracks, localTransceivers => (incomingTracks, localTransceivers, [])
  | (ssrc, incoming) :: rest, incomingTracks, localTransceivers =>
    let kind := ((mapGet incomingTracks ssrc).map (fun i => i.kind)).getD 0
    match matchTransceiver kind localTransceivers with
    | none => matchIncoming rest incomingTracks localTransceivers
    | some (t, left) =>
      let r := matchIncoming rest (mapDelete incomingTracks ssrc) left
      (r.1, r.2.1, Effect.startReceiver incoming t.Receiver :: r.2.2)

/-- The loop of the branch `if remoteIsPlanB` of `openSRTP` (lines 265-274) on the entries
still to visit. -/
def addPlanBTransceivers (c : Collaborators) :
    List (Nat × IncomingTrack) → PeerConnection → PeerConnection × List Effect
  | [], pc => (pc, [])
  | (_, incoming) :: rest, pc =>
    let call := Effect.addTransceiver incoming.kind RTPTransceiverDirection.Sendrecv
    match c.AddTransceiver pc.rtpTransceivers incoming.kind
        RTPTransceiverDirection.Sendrecv with
    | .error _ =>
      let r := addPlanBTransceivers c rest pc
      (r.1, call :: r.2)
    | .ok t =>
      let r := addPlanBTransceivers c rest
        { pc with rtpTransceivers := pc.rtpTransceivers ++ [t] }
      (r.1, call :: Effect.startReceiver incoming t.Receiver :: r.2)

/-- The local variable `remoteIsPlanB` of `openSRTP` (lines 157-163). -/
def PeerConnection.remoteIsPlanB (pc : PeerConnection) : Bool :=
  match pc.SDPSemantics with
  | .PlanB => true
  | .UnifiedPlanWithFallback => pc.remoteDescriptionIsPlanB
  | _ => false

/-- The method `openSRTP` (lines 146-276): the connection and the calls made, or `none`
when reading the remote media description panics. -/
def MediaTransport.openSRTP (c : Collaborators) (pc : PeerConnection) (t : MediaTransport) :
    Option (PeerConnection × List Effect) :=
  let remoteIsPlanB := pc.remoteIsPlanB
  match t.getRemoteMediaDescription with
  | some (some media) =>
    let incomingTracks := scanSSRC (NewRTPCodecType media.Media) media.Attributes []
    let localTransceivers := pc.rtpTransceivers
    let r := matchIncoming (c.rangeOrder incomingTracks) incomingTracks localTransceivers
    let incomingTracks := r.1
    if remoteIsPlanB then
      let r2 := addPlanBTransceivers c (c.rangeOrder incomingTracks) pc
      some (r2.1, r.2.2 ++ r2.2)
    else some (pc, r.2.2)
  | _ => none

/-- The loop `for _, tranceiver := range t.RTPTransceivers` of `connectSRTP`
(lines 124-138): the calls made, or `none` when a Sender without a track is reached. -/
def sendAll : List RTPTransceiver → Option (List Effect)
  | [] => some []
  | tranceiver :: rest =>
    match tranceiver.Sender with
    | none => sendAll rest
    | some sender =>
      match sender.track with
      | none => none
      | some track =>
        match sendAll rest with
        | none => none
        | some calls =>
          some (Effect.senderSend sender.sender track.ssrc track.payloadType :: calls)

/-- The method `connectSRTP` (lines 121-141). -/
def MediaTransport.connectSRTP (c : Collaborators) (pc : PeerConnection)
    (t : MediaTransport) : Option (PeerConnection × List Effect) :=
  match t.openSRTP c pc with
  | none => none
  | some (pc1, opened) =>
    match sendAll t.RTPTransceivers with
    | none => none
    | some sent => some (pc1, opened ++ sent ++ [Effect.drainSRTP])

/-- The method `MediaTransport.handleEvent` (lines 43-51). -/
def MediaTransport.handleEvent (c : Collaborators) (pc : PeerConnection)
    (t : MediaTransport) (untypedEvt : Event) : Option (PeerConnection × List Effect) :=
  match untypedEvt with
  | .dtlsStateEvent _ state =>
    if state = DTLSTransportState.Connected then t.connectSRTP c pc else some (pc, [])
  | _ => some (pc, [])

/-- The values sent to `pc.events` among the calls made. -/
def forwarded : List Effect → List Event
  | [] => []
  | Effect.pcEvents evt :: rest => evt :: forwarded rest
  | _ :: rest => forwarded rest

/-- The wired cascade: the transport's event loop on the values delivered on `t.events`,
then the connection's dispatch loop on the values it forwarded to `pc.events`; the result
is the connection and all calls made, or `none` when the transport's loop panics. -/
def cascade (pc : PeerConnection) (t : MediaTransport) (events : List Event) :
    Option (PeerConnection × List Effect) :=
  match t.eventLoop pc events with
  | none => none
  | some calls =>
    let r := pc.startEventLoop (forwarded calls)
    some (r.1, calls ++ r.2)

/-- The candidate that the body of the loop over `media.Attributes` (lines 173-188) stores
for one attribute, with its key in the map: `none` when the attribute is not an "ssrc"
attribute or its first token does not parse. -/
def attributeCandidate (codecType : RTPCodecType) (attr : Attribute) :
    Option (Nat × IncomingTrack) :=
  if attr.Key = "ssrc" then
    let split := stringsSplit attr.Value
    match parseUint (split.headD "") with
    | none => none
    | some ssrc =>
      let labelAndID : String × String :=
        if split.length = 3 ∧ hasPrefix (split.getD 1 "") "msid:" then
          (String.mk ((split.getD 1 "").data.drop 5), split.getD 2 "")
        else ("", "")
      some (ssrc,
        { kind := codecType, label := labelAndID.1, id := labelAndID.2, ssrc := ssrc })
  else none

/-- The test `trackID != "" && trackLabel != ""` (line 189) on the candidate of an
attribute: the attribute is an "ssrc" attribute whose first token parses and that supplies
a non-empty label and a non-empty id. -/
def suppliesLabelAndID (codecType : RTPCodecType) (attr : Attribute) : Bool :=
  match attributeCandidate codecType attr with
  | some (_, incoming) => decide (incoming.id ≠ "" ∧ incoming.label ≠ "")
  | none => false

/-- The pairs of the matching loop of `openSRTP` (lines 245-262): for each visited entry
that finds a transceiver, the entry and that transceiver, in the order of the visits. The
recursion is that of `matchIncoming`, which records for each pair the call
`go startReceiver(incoming, t.Receiver)`. -/
def matchedPairs :
    List (Nat × IncomingTrack) → List (Nat × IncomingTrack) → List RTPTransceiver →
      List ((Nat × IncomingTrack) × RTPTransceiver)
  | [], _, _ => []
  | (ssrc, incoming) :: rest, incomingTracks, localTransceivers =>
    let kind := ((mapGet incomingTracks ssrc).map (fun i => i.kind)).getD 0
    match matchTransceiver kind localTransceivers with
    | none => matchedPairs rest incomingTracks localTransceivers
    | some (t, left) =>
      ((ssrc, incoming), t) :: matchedPairs rest (mapDelete incomingTracks ssrc) left

/-- A transceiver can take an incoming stream of the kind `kind`: its media kind is `kind`,
its direction is recvonly or sendrecv, and it has a Receiver. -/
def canReceive (kind : RTPCodecType) (t : RTPTransceiver) : Prop :=
  t.kind = kind
    ∧ (t.Direction = RTPTransceiverDirection.Recvonly
        ∨ t.Direction = RTPTransceiverDirection.Sendrecv)
    ∧ t.Receiver ≠ none

instance (kind : RTPCodecType) (t : RTPTransceiver) : Decidable (canReceive kind t) := by
  unfold canReceive; infer_instance

/-- The matching asked of `openSRTP`, as a relation between the candidates in the order
they are considered, the local transceivers, and the pairs started: a candidate for which
no transceiver under consideration can receive is passed over; otherwise the candidate is
paired with the first transceiver under consideration that can receive its kind, and that
transceiver is removed from consideration for the candidates that follow. -/
inductive FirstMatch :
    List (Nat × IncomingTrack) → List RTPTransceiver →
      List ((Nat × IncomingTrack) × RTPTransceiver) → Prop where
  | done (trs : List RTPTransceiver) : FirstMatch [] trs []
  | pass (e : Nat × IncomingTrack) (rest : List (Nat × IncomingTrack))
      (trs : List RTPTransceiver) (pairs : List ((Nat × IncomingTrack) × RTPTransceiver)) :
      (∀ t ∈ trs, ¬ canReceive e.2.kind t) → FirstMatch rest trs pairs →
      FirstMatch (e :: rest) trs pairs
  | pair (e : Nat × IncomingTrack) (rest : List (Nat × IncomingTrack))
      (pre : List RTPTransceiver) (t : RTPTransceiver) (post : List RTPTransceiver)
      (pairs : List ((Nat × IncomingTrack) × RTPTransceiver)) :
      (∀ x ∈ pre, ¬ canReceive e.2.kind x) → canReceive e.2.kind t →
      FirstMatch rest (pre ++ post) pairs →
      FirstMatch (e :: rest) (pre ++ t :: post) ((e, t) :: pairs)

/-- The working set of candidates that `openSRTP` builds from a remote media description
(lines 165-193). -/
def workingSet (media : MediaDescription) : List (Nat × IncomingTrack) :=
  scanSSRC (NewRTPCodecType media.Media) media.Attributes []

/-- The candidates left in the working set when the matching loop of `openSRTP` has ended
(line 262). -/
def unmatchedCandidates (c : Collaborators) (pc : PeerConnection)
    (media : MediaDescription) : List (Nat × IncomingTrack) :=
  (matchIncoming (c.rangeOrder (workingSet media)) (workingSet media) pc.rtpTransceivers).1

/-- The calls made by the matching loop of `openSRTP` (lines 245-262). -/
def matchingCalls (c : Collaborators) (pc : PeerConnection) (media : MediaDescription) :
    List Effect :=
  (matchIncoming (c.rangeOrder (workingSet media)) (workingSet media)
    pc.rtpTransceivers).2.2

/-- The `AddTransceiver` calls among the calls made, in order. -/
def addTransceiverCalls : List Effect → List Effect
  | [] => []
  | Effect.addTransceiver kind direction :: rest =>
    Effect.addTransceiver kind direction :: addTransceiverCalls rest
  | _ :: rest => addTransceiverCalls rest

/-- The calls expected of the Plan-B branch when one transceiver is created for each
unmatched candidate: for each candidate, a sendrecv transceiver of its kind is added and
the Receiver of the new transceiver is started with the candidate. -/
def planBCalls : List (Nat × IncomingTrack) → List RTPTransceiver → List Effect
  | e :: rest, t :: created =>
    Effect.addTransceiver e.2.kind RTPTransceiverDirection.Sendrecv
      :: Effect.startReceiver e.2 t.Receiver :: planBCalls rest created
  | _, _ => []

/-- The Send calls among the calls made, in order. -/
def sendCalls : List Effect → List Effect
  | [] => []
  | Effect.senderSend sender ssrc payloadType :: rest =>
    Effect.senderSend sender ssrc payloadType :: sendCalls rest
  | _ :: rest => sendCalls rest

/-- The Send calls expected of secure-session activation: one for each transceiver that
has a Sender with an assigned outbound track, in list order, with the SSRC and payload type
of that track. -/
def expectedSends : List RTPTransceiver → List Effect
  | [] => []
  | tranceiver :: rest =>
    match tranceiver.Sender with
    | some sender =>
      match sender.track with
      | some track =>
        Effect.senderSend sender.sender track.ssrc track.payloadType :: expectedSends rest
      | none => expectedSends rest
    | none => expectedSends rest

/-- The method `RTPTransceiver.setSendingTrack` (`rtptransceiver.go`, lines 36-52): the
transceiver after the call and the returned error (`none` for nil); the result is `none`
when the assignment `t.Sender.track = track` panics on a nil Sender. A nil `track` is
`none`. -/
def RTPTransceiver.setSendingTrack (t : RTPTransceiver) (track : Option Track) :
    Option (RTPTransceiver × Option String) :=
  match track with
  | none => some (t, some "track must not be nil")
  | some track =>
    match t.Sender with
    | none => none
    | some sender =>
      let t1 := { t with Sender := some { sender with track := some track } }
      match t1.Direction with
      | .Recvonly => some ({ t1 with Direction := RTPTransceiverDirection.Sendrecv }, none)
      | .Inactive => some ({ t1 with Direction := RTPTransceiverDirection.Sendonly }, none)
      | _ => some (t1, some "invalid state change in RTPTransceiver.setSending")

/-- The gathering state most recently reported for a transport, read off the reports
themselves: the state carried by the last event for the transport in the sequence, or,
when the sequence has no event for it, the state the connection held for it before the
sequence; `none` for a transport that is not tracked. -/
def lastReported (known : List (Nat × ICEGatheringState))
    (evs : List (Nat × ICEGatheringState)) (transport : Nat) : Option ICEGatheringState :=
  match (evs.filter (fun e => e.1 = transport)).getLast? with
  | some e => some e.2
  | none => mapGet known transport

/-- The result of the `AddTransceiver` call made for each unmatched candidate, in the
order of the visits: each call is made on the transceivers the connection has at that
moment, those added by the earlier successful calls included. -/
def planBResults (c : Collaborators) :
    List (Nat × IncomingTrack) → List RTPTransceiver → List (GoResult RTPTransceiver)
  | [], _ => []
  | e :: rest, existing =>
    match c.AddTransceiver existing e.2.kind RTPTransceiverDirection.Sendrecv with
    | .ok tr => GoResult.ok tr :: planBResults c rest (existing ++ [tr])
    | .error msg => GoResult.error msg :: planBResults c rest existing

/-- The calls expected for one unmatched candidate, from the result of the `AddTransceiver`
call made for it: the call itself, with the candidate's kind and the direction sendrecv,
followed, when the call succeeded, by the start of the new transceiver's Receiver with the
candidate, and by nothing when it failed. -/
def planBCallsFor (e : Nat × IncomingTrack) (result : GoResult RTPTransceiver) :
    List Effect :=
  match result with
  | .ok tr =>
    [Effect.addTransceiver e.2.kind RTPTransceiverDirection.Sendrecv,
      Effect.startReceiver e.2 tr.Receiver]
  | .error _ => [Effect.addTransceiver e.2.kind RTPTransceiverDirection.Sendrecv]

/-- The transceivers returned by the successful calls among the results, in order. -/
def createdTransceivers : List (GoResult RTPTransceiver) → List RTPTransceiver
  | [] => []
  | .ok tr :: rest => tr :: createdTransceivers rest
  | .error _ :: rest => createdTransceivers rest

/-! ## Concrete inputs -/

/-- A session description without attributes. -/
def sessionNoAttributes : SessionDescription :=
  { Attributes := [] }

/-- A session description whose fingerprint has no space. -/
def sessionOneTokenFingerprint : SessionDescription :=
  { Attributes := [{ Key := "fingerprint", Value := "sha-256" }] }

/-- An audio media description whose fingerprint has no space. -/
def mediaOneTokenFingerprint : MediaDescription :=
  { Media := "audio", Attributes := [{ Key := "fingerprint", Value := "sha-256" }] }

/-- A connection whose current local description has no attributes. -/
def connectionNoSessionAttributes : PeerConnection :=
  { currentLocalDescription := some sessionNoAttributes }

/-- A media transport with one transceiver, whose local media description has a fingerprint
without a space. -/
def transportOneTokenFingerprint : MediaTransport :=
  { RTPTransceivers := [{ LocalMediaDescription := some mediaOneTokenFingerprint }] }

/-- A session description with a well-formed fingerprint. -/
def sessionWithFingerprint : SessionDescription :=
  { Attributes := [{ Key := "fingerprint", Value := "sha-256 AB:CD" }] }

/-- An audio media description with a well-formed fingerprint and an SSRC line. -/
def mediaWithFingerprint : MediaDescription :=
  { Media := "audio",
    Attributes := [{ Key := "fingerprint", Value := "sha-256 12:34" },
      { Key := "ssrc", Value := "1111 msid:stream1 track1" }] }

/-- A connection whose current local description has a fingerprint and whose candidate
handler is set. -/
def connectionWithFingerprint : PeerConnection :=
  { currentLocalDescription := some sessionWithFingerprint, onICECandidateHandler := true }

/-- A sendrecv audio transceiver with a Sender that has a track, a Receiver, and local and
remote media descriptions. -/
def transceiverSendrecv : RTPTransceiver :=
  { Sender := some { sender := 7, track := some { ssrc := 2222, payloadType := 96 } },
    Receiver := some { receiver := 8 },
    Direction := RTPTransceiverDirection.Sendrecv,
    kind := 1,
    Mid := "0",
    LocalMediaDescription := some mediaWithFingerprint,
    RemoteMediaDescription := some mediaWithFingerprint }

/-- The media transport returned by `MediaTransportCreate` when both creations succeed,
with the transceiver `transceiverSendrecv` attached to it. -/
def transportCreatedWithTransceiver : MediaTransport :=
  { MediaTransportCreate (GoResult.ok 1) (GoResult.ok { transport := 1, iceTransport := 1 })
      with RTPTransceivers := [transceiverSendrecv] }

/-- Collaborators that visit a map in the order of insertion and refuse to add a
transceiver. -/
def collaboratorsInOrder : Collaborators :=
  { rangeOrder := fun m => m,
    AddTransceiver := fun _ _ _ => GoResult.error "not supported" }

/-- The library function `rtcp.Marshal` taken as the concatenation of the packets. -/
def marshalConcat (pkts : List RTCPPacket) : GoResult (List Nat) :=
  GoResult.ok pkts.flatten

/-- A connection whose aggregate is Gathering, with both handlers set and both tracked
transports Complete. -/
def connectionReadyToComplete : PeerConnection :=
  { iceGatheringState := ICEGatheringState.Gathering,
    iceGatheringStates := [(1, ICEGatheringState.Complete), (2, ICEGatheringState.Complete)],
    onICEGatheringStateHandler := true,
    onICECandidateHandler := true }

/-- A transceiver whose Sender fails to stop. -/
def transceiverSenderStopFails : RTPTransceiver :=
  { Sender := some { sender := 7, stopErr := some "sender already stopped" },
    Receiver := some { receiver := 8 } }

/-- A recvonly audio transceiver with a Receiver and a Sender that has no track yet. -/
def transceiverRecvonlyNoTrack : RTPTransceiver :=
  { Sender := some { sender := 17 },
    Receiver := some { receiver := 18 },
    Direction := RTPTransceiverDirection.Recvonly,
    kind := 1,
    Mid := "1" }

/-- A recvonly audio transceiver with a Receiver and no Sender. -/
def transceiverRecvonly : RTPTransceiver :=
  { Receiver := some { receiver := 28 },
    Direction := RTPTransceiverDirection.Recvonly,
    kind := 1,
    Mid := "1" }

/-- The created media transport with a sendrecv transceiver and a recvonly transceiver
without a Sender. -/
def transportSendrecvRecvonly : MediaTransport :=
  { transportCreatedWithTransceiver
      with RTPTransceivers := [transceiverSendrecv, transceiverRecvonly] }

/-- An audio media description in which the first attribute for SSRC 1111 supplies a label
but no id, and the second attribute for SSRC 1111 supplies neither. -/
def mediaLabelThenPlain : MediaDescription :=
  { Media := "audio",
    Attributes := [{ Key := "ssrc", Value := "1111 msid:stream1 " },
      { Key := "ssrc", Value := "1111 cname:x" }] }

/-- An audio media description with a plain attribute for SSRC 1111, then an attribute for
SSRC 1111 that supplies label and id, then an attribute for SSRC 2222. -/
def mediaPlainThenMsid : MediaDescription :=
  { Media := "audio",
    Attributes := [{ Key := "ssrc", Value := "1111 cname:a" },
      { Key := "ssrc", Value := "1111 msid:stream1 track1" },
      { Key := "ssrc", Value := "2222 cname:b" }] }

/-- A working set with two audio candidates, SSRC 1111 and SSRC 2222. -/
def candidatesTwo : List (Nat × IncomingTrack) :=
  [(1111, { kind := 1, label := "", id := "", ssrc := 1111 }),
    (2222, { kind := 1, label := "", id := "", ssrc := 2222 })]

/-- The working set `candidatesTwo` visited from its last entry to its first. -/
def candidatesTwoReversed : List (Nat × IncomingTrack) :=
  [(2222, { kind := 1, label := "", id := "", ssrc := 2222 }),
    (1111, { kind := 1, label := "", id := "", ssrc := 1111 })]

/-- An audio media description with plain attributes for SSRC 1111 and SSRC 2222. -/
def mediaTwoSSRC : MediaDescription :=
  { Media := "audio",
    Attributes := [{ Key := "ssrc", Value := "1111 cname:a" },
      { Key := "ssrc", Value := "2222 cname:b" }] }

/-- A media transport whose first transceiver has the remote media description
`mediaTwoSSRC`. -/
def transportTwoSSRC : MediaTransport :=
  { RTPTransceivers := [{ RemoteMediaDescription := some mediaTwoSSRC }] }

/-- A connection with Plan-B semantics and one local transceiver, recvonly audio with a
Receiver. -/
def connectionPlanB : PeerConnection :=
  { SDPSemantics := SDPSemantics.PlanB, rtpTransceivers := [transceiverRecvonly] }

/-- Collaborators that visit a map in the order of insertion and add a sendrecv
transceiver of the requested kind whose Receiver is numbered after the transceivers that
exist. -/
def collaboratorsAdding : Collaborators :=
  { rangeOrder := fun m => m,
    AddTransceiver := fun existing kind direction =>
      GoResult.ok
        { kind := kind, Direction := direction,
          Receiver := some { receiver := 100 + existing.length } } }

/-- A connection with Plan-B semantics whose only local transceiver cannot receive (its
direction is inactive and its kind is not a media kind). -/
def connectionPlanBNoReceiver : PeerConnection :=
  { SDPSemantics := SDPSemantics.PlanB, rtpTransceivers := [transceiverSenderStopFails] }

/-- Collaborators that visit a map in the order of insertion and add a transceiver only
while the connection has fewer than two. -/
def collaboratorsAddingOnce : Collaborators :=
  { rangeOrder := fun m => m,
    AddTransceiver := fun existing kind direction =>
      if existing.length < 2 then
        GoResult.ok
          { kind := kind, Direction := direction,
            Receiver := some { receiver := 100 + existing.length } }
      else GoResult.error "too many transceivers" }

/-! # Properties -/

/-! ## Gathering-state aggregation -/

theorem allKnownComplete_iff (m : List (Nat × ICEGatheringState)) :
    allKnownComplete m = true ↔ ∀ kv ∈ m, kv.2 = ICEGatheringState.Complete := by
  induction m with
  | nil => simp [allKnownComplete]
  | cons kv rest ih =>
    obtain ⟨k, v⟩ := kv
    by_cases hv : v = ICEGatheringState.Complete
    · simp [allKnownComplete, hv, ih]
    · simp [allKnownComplete, hv]

theorem mem_mapSet_self {β : Type} (m : List (Nat × β)) (k : Nat) (v : β) :
    (k, v) ∈ mapSet m k v := by
  induction m with
  | nil => simp [mapSet]
  | cons kv rest ih =>
    obtain ⟨k0, v0⟩ := kv
    by_cases h : k0 = k
    · simp [mapSet, h]
    · simp [mapSet, h, ih]

theorem mem_of_mem_mapSet {β : Type} (m : List (Nat × β)) (k : Nat) (v : β)
    (kv : Nat × β) (h : kv ∈ mapSet m k v) : kv = (k, v) ∨ kv ∈ m := by
  induction m with
  | nil => simpa [mapSet] using h
  | cons kv0 rest ih =>
    obtain ⟨k0, v0⟩ := kv0
    by_cases hk : k0 = k
    · simp only [mapSet, hk, if_true, List.mem_cons] at h
      rcases h with h | h
      · exact Or.inl h
      · exact Or.inr (List.mem_cons_of_mem _ h)
    · simp only [mapSet, hk, if_false, List.mem_cons] at h
      rcases h with h | h
      · exact Or.inr (by simp [h])
      · rcases ih h with h1 | h1
        · exact Or.inl h1
        · exact Or.inr (List.mem_cons_of_mem _ h1)

theorem gatherStep_states (pc : PeerConnection) (e : Nat × ICEGatheringState) :
    (gatherStep pc e).iceGatheringStates = mapSet pc.iceGatheringStates e.1 e.2 := by
  obtain ⟨T, st⟩ := e
  simp only [gatherStep, PeerConnection.dispatch,
    PeerConnection.handleIceGatheringTransition]
  cases st <;> (repeat' split) <;> rfl

theorem startEventLoop_gathering_cons (pc : PeerConnection) (e : Nat × ICEGatheringState)
    (rest : List (Nat × ICEGatheringState)) :
    (pc.startEventLoop (gatheringEvents (e :: rest))).1
      = ((gatherStep pc e).startEventLoop (gatheringEvents rest)).1 := by
  simp [gatheringEvents, PeerConnection.startEventLoop, PeerConnection.dispatch, gatherStep]

theorem gatherStep_aggregate_iff (pc : PeerConnection) (e : Nat × ICEGatheringState)
    (hne : e.2 ≠ ICEGatheringState.New)
    (hinv : pc.iceGatheringState = ICEGatheringState.Complete → pc.allTransportsComplete) :
    (gatherStep pc e).iceGatheringState = ICEGatheringState.Complete
      ↔ (gatherStep pc e).allTransportsComplete := by
  have hst := gatherStep_states pc e
  unfold PeerConnection.allTransportsComplete at *
  rw [hst]
  obtain ⟨T, st⟩ := e
  cases st with
  | New => exact absurd rfl hne
  | Gathering =>
    have hmem := mem_mapSet_self pc.iceGatheringStates T ICEGatheringState.Gathering
    have h1 : (gatherStep pc (T, ICEGatheringState.Gathering)).iceGatheringState
        = ICEGatheringState.Gathering := by
      by_cases hagg : ICEGatheringState.Gathering = pc.iceGatheringState
      · simp [gatherStep, PeerConnection.dispatch,
          PeerConnection.handleIceGatheringTransition, ← hagg]
      · simp [gatherStep, PeerConnection.dispatch,
          PeerConnection.handleIceGatheringTransition, hagg]
    constructor
    · intro h
      rw [h1] at h
      exact absurd h (by decide)
    · intro h
      have := h _ hmem
      simp at this
  | Complete =>
    by_cases hagg : pc.iceGatheringState = ICEGatheringState.Complete
    · have h1 : (gatherStep pc (T, ICEGatheringState.Complete)).iceGatheringState
          = ICEGatheringState.Complete := by
        simp [gatherStep, PeerConnection.dispatch,
          PeerConnection.handleIceGatheringTransition, hagg]
      constructor
      · intro _ kv hkv
        rcases mem_of_mem_mapSet _ _ _ kv hkv with h | h
        · rw [h]
        · exact hinv hagg kv h
      · intro _
        exact h1
    · have hagg2 : ¬ (ICEGatheringState.Complete = pc.iceGatheringState) :=
        fun h => hagg h.symm
      by_cases hall : allKnownComplete
          (mapSet pc.iceGatheringStates T ICEGatheringState.Complete) = true
      · have h1 : (gatherStep pc (T, ICEGatheringState.Complete)).iceGatheringState
            = ICEGatheringState.Complete := by
          simp [gatherStep, PeerConnection.dispatch,
            PeerConnection.handleIceGatheringTransition, hagg2, hall]
        constructor
        · intro _
          exact (allKnownComplete_iff _).1 hall
        · intro _
          exact h1
      · have h1 : (gatherStep pc (T, ICEGatheringState.Complete)).iceGatheringState
            = pc.iceGatheringState := by
          simp [gatherStep, PeerConnection.dispatch,
            PeerConnection.handleIceGatheringTransition, hagg2, hall]
        constructor
        · intro h
          rw [h1] at h
          exact absurd h hagg
        · intro h
          exact absurd ((allKnownComplete_iff _).2 h) hall

theorem startEventLoop_gathering_iff (evs : List (Nat × ICEGatheringState)) :
    ∀ pc : PeerConnection,
      (pc.iceGatheringState = ICEGatheringState.Complete → pc.allTransportsComplete) →
      (∀ e ∈ evs, e.2 ≠ ICEGatheringState.New) → evs ≠ [] →
      ((pc.startEventLoop (gatheringEvents evs)).1.iceGatheringState
          = ICEGatheringState.Complete
        ↔ (pc.startEventLoop (gatheringEvents evs)).1.allTransportsComplete) := by
  induction evs with
  | nil => intro _ _ _ h; exact absurd rfl h
  | cons e rest ih =>
    intro pc hinv hne _
    rw [startEventLoop_gathering_cons]
    have hstep := gatherStep_aggregate_iff pc e (hne e (List.mem_cons_self _ _)) hinv
    by_cases hrest : rest = []
    · subst hrest
      simpa [gatheringEvents, PeerConnection.startEventLoop] using hstep
    · exact ih (gatherStep pc e) hstep.1
        (fun e1 he1 => hne e1 (List.mem_cons_of_mem _ he1)) hrest

theorem gatherStep_keeps_complete (pc : PeerConnection) (e : Nat × ICEGatheringState)
    (hagg : pc.iceGatheringState = ICEGatheringState.Complete)
    (hne : e.2 ≠ ICEGatheringState.Gathering) :
    (gatherStep pc e).iceGatheringState = ICEGatheringState.Complete := by
  obtain ⟨T, st⟩ := e
  cases st with
  | Gathering => exact absurd rfl hne
  | New =>
    simp [gatherStep, PeerConnection.dispatch, PeerConnection.handleIceGatheringTransition,
      hagg]
  | Complete =>
    simp [gatherStep, PeerConnection.dispatch, PeerConnection.handleIceGatheringTransition,
      hagg]

theorem gatherStep_gathering (pc : PeerConnection) (T : Nat) :
    (gatherStep pc (T, ICEGatheringState.Gathering)).iceGatheringState
      = ICEGatheringState.Gathering := by
  by_cases hagg : ICEGatheringState.Gathering = pc.iceGatheringState
  · simp [gatherStep, PeerConnection.dispatch,
      PeerConnection.handleIceGatheringTransition, ← hagg]
  · simp [gatherStep, PeerConnection.dispatch,
      PeerConnection.handleIceGatheringTransition, hagg]

/-- C2 (as stated, refuted): from a new connection, after transport 1 reports Complete the
aggregate is Complete, and after transport 2 then reports Gathering the aggregate is
Gathering: the aggregate regresses from Complete. -/
theorem C2_aggregate_regresses_on_Gathering :
    (({ iceGatheringState := ICEGatheringState.New, iceGatheringStates := [] } :
          PeerConnection).startEventLoop
        (gatheringEvents [(1, ICEGatheringState.Complete)])).1.iceGatheringState
      = ICEGatheringState.Complete
    ∧ (({ iceGatheringState := ICEGatheringState.New, iceGatheringStates := [] } :
          PeerConnection).startEventLoop
        (gatheringEvents [(1, ICEGatheringState.Complete),
          (2, ICEGatheringState.Gathering)])).1.iceGatheringState
      = ICEGatheringState.Gathering := by
  decide

/-- C2 (amended): once the aggregate gathering state is Complete, it is still Complete
after every sequence of subsequent gathering-state events whose states are Complete or
New, for any transports; a subsequent Gathering event for any transport sets the aggregate
to Gathering. -/
theorem C2_aggregate_stays_complete_unless_Gathering (pc : PeerConnection)
    (hagg : pc.iceGatheringState = ICEGatheringState.Complete) :
    (∀ evs : List (Nat × ICEGatheringState),
        (∀ e ∈ evs, e.2 ≠ ICEGatheringState.Gathering) →
        (pc.startEventLoop (gatheringEvents evs)).1.iceGatheringState
          = ICEGatheringState.Complete)
    ∧ (∀ T : Nat,
        (pc.startEventLoop
            (gatheringEvents [(T, ICEGatheringState.Gathering)])).1.iceGatheringState
          = ICEGatheringState.Gathering) := by
  constructor
  · intro evs
    induction evs generalizing pc with
    | nil => intro _; simpa [gatheringEvents, PeerConnection.startEventLoop] using hagg
    | cons e rest ih =>
      intro hne
      rw [startEventLoop_gathering_cons]
      exact ih (gatherStep pc e)
        (gatherStep_keeps_complete pc e hagg (hne e (List.mem_cons_self _ _)))
        (fun e1 he1 => hne e1 (List.mem_cons_of_mem _ he1))
  · intro T
    rw [startEventLoop_gathering_cons]
    simpa [gatheringEvents, PeerConnection.startEventLoop] using gatherStep_gathering pc T

/-- C2 (amended), at a concrete input: a connection whose aggregate is Complete with one
transport tracked as Complete. -/
theorem C2_aggregate_stays_complete_unless_Gathering_witness :
    ({ iceGatheringState := ICEGatheringState.Complete,
        iceGatheringStates := [(1, ICEGatheringState.Complete)] } :
          PeerConnection).iceGatheringState = ICEGatheringState.Complete
    ∧ (({ iceGatheringState := ICEGatheringState.Complete,
          iceGatheringStates := [(1, ICEGatheringState.Complete)] } :
            PeerConnection).startEventLoop
          (gatheringEvents [(2, ICEGatheringState.New),
            (1, ICEGatheringState.Complete)])).1.iceGatheringState
        = ICEGatheringState.Complete :=
  ⟨rfl,
    (C2_aggregate_stays_complete_unless_Gathering
      { iceGatheringState := ICEGatheringState.Complete,
        iceGatheringStates := [(1, ICEGatheringState.Complete)] } rfl).1
      [(2, ICEGatheringState.New), (1, ICEGatheringState.Complete)] (by decide)⟩

/-! ## DTLS role and fingerprint resolution -/

theorem splitChars_ne_nil (sep : Char) (cs : List Char) : splitChars sep cs ≠ [] := by
  induction cs with
  | nil => simp [splitChars]
  | cons c rest ih =>
    by_cases h : c = sep
    · simp [splitChars, h]
    · simp only [splitChars, h, if_false]
      split <;> simp

theorem splitChars_length (sep : Char) (cs : List Char) :
    (splitChars sep cs).length = cs.count sep + 1 := by
  induction cs with
  | nil => simp [splitChars]
  | cons c rest ih =>
    by_cases h : c = sep
    · simp [splitChars, h, ih]
    · have hne : ¬ ((c == sep) = true) := by simpa using h
      simp only [splitChars, h, if_false]
      split
      · rename_i heq
        exact absurd heq (splitChars_ne_nil sep rest)
      · rename_i p ps heq
        rw [heq] at ih
        rw [List.count_cons]
        simp only [hne, if_false]
        simpa using ih

theorem stringsSplit_length (s : String) :
    (stringsSplit s).length = s.data.count ' ' + 1 := by
  simp [stringsSplit, splitChars_length]

theorem dtlsParamsFromFingerprint_invalid (role : DTLSRole) (fingerprint : String)
    (h : (stringsSplit fingerprint).length ≠ 2) :
    dtlsParamsFromFingerprint role fingerprint = GoResult.error "invalid fingerprint" := by
  unfold dtlsParamsFromFingerprint
  split
  · rename_i p0 p1 heq
    rw [heq] at h
    exact absurd rfl h
  · rfl

theorem dtlsParamsFromFingerprint_two (role : DTLSRole) (fingerprint p0 p1 : String)
    (h : stringsSplit fingerprint = [p0, p1]) :
    dtlsParamsFromFingerprint role fingerprint
      = GoResult.ok { Role := role, Fingerprints := [{ Algorithm := p0, Value := p1 }] } := by
  simp [dtlsParamsFromFingerprint, h]

theorem dtlsParamsFromFingerprint_error_iff (role : DTLSRole) (fingerprint : String) :
    (∃ msg, dtlsParamsFromFingerprint role fingerprint = GoResult.error msg)
      ↔ (stringsSplit fingerprint).length ≠ 2 := by
  constructor
  · rintro ⟨msg, hmsg⟩ hlen
    match hs : stringsSplit fingerprint, hlen with
    | [p0, p1], _ =>
      rw [dtlsParamsFromFingerprint_two role fingerprint p0 p1 hs] at hmsg
      exact GoResult.noConfusion hmsg
  · intro h
    exact ⟨_, dtlsParamsFromFingerprint_invalid role fingerprint h⟩

/-- C3: for every fingerprint value whose split on a single space has a number of tokens
other than 2 (that is, whose number of spaces is not 1), `dtlsParamsFromSession`,
`dtlsParamsFromMediaSection` and `transportGetDtlsParams` return the error
"invalid fingerprint" and no parameters, whenever that value is the fingerprint they read
(for `transportGetDtlsParams`: the media-level value, or the session-level value when the
media level has none). -/
theorem C3_malformed_fingerprint_is_rejected (f : String)
    (h : (stringsSplit f).length ≠ 2) :
    f.data.count ' ' ≠ 1
    ∧ (∀ s : SessionDescription, s.Attribute "fingerprint" = (f, true) →
        dtlsParamsFromSession s = GoResult.error "invalid fingerprint")
    ∧ (∀ m : MediaDescription, m.Attribute "fingerprint" = (f, true) →
        dtlsParamsFromMediaSection m = GoResult.error "invalid fingerprint")
    ∧ (∀ (pc : PeerConnection) (t : MediaTransport) (sess : SessionDescription)
        (media : MediaDescription),
        pc.currentLocalDescription = some sess →
        t.getLocalMediaDescription = some (some media) →
        (media.Attribute "fingerprint" = (f, true)
          ∨ ((media.Attribute "fingerprint").2 = false
              ∧ sess.Attribute "fingerprint" = (f, true))) →
        transportGetDtlsParams pc t = some (GoResult.error "invalid fingerprint")) := by
  refine ⟨?_, ?_, ?_, ?_⟩
  · intro hc
    rw [stringsSplit_length, hc] at h
    exact h rfl
  · intro s hs
    simp [dtlsParamsFromSession, hs, dtlsParamsFromFingerprint_invalid _ f h]
  · intro m hm
    simp [dtlsParamsFromMediaSection, hm, dtlsParamsFromFingerprint_invalid _ f h]
  · intro pc t sess media hsess hmedia hf
    rcases hf with hf | ⟨hf1, hf2⟩
    · simp [transportGetDtlsParams, hsess, hmedia, hf,
        dtlsParamsFromFingerprint_invalid _ f h]
    · have hm : media.Attribute "fingerprint"
          = ((media.Attribute "fingerprint").1, false) := by
        rw [← hf1]
      simp only [transportGetDtlsParams, hsess, hmedia]
      rw [hm]
      simp [hf2, dtlsParamsFromFingerprint_invalid _ f h]

/-- C3, at concrete inputs: a fingerprint without a space at the session level and at the
media level. -/
theorem C3_malformed_fingerprint_is_rejected_witness :
    (stringsSplit "sha-256").length ≠ 2
    ∧ dtlsParamsFromSession sessionOneTokenFingerprint
        = GoResult.error "invalid fingerprint"
    ∧ dtlsParamsFromMediaSection mediaOneTokenFingerprint
        = GoResult.error "invalid fingerprint"
    ∧ transportGetDtlsParams connectionNoSessionAttributes transportOneTokenFingerprint
        = some (GoResult.error "invalid fingerprint") :=
  ⟨by decide,
    (C3_malformed_fingerprint_is_rejected "sha-256" (by decide)).2.1
      sessionOneTokenFingerprint (by decide),
    (C3_malformed_fingerprint_is_rejected "sha-256" (by decide)).2.2.1
      mediaOneTokenFingerprint (by decide),
    (C3_malformed_fingerprint_is_rejected "sha-256" (by decide)).2.2.2
      connectionNoSessionAttributes transportOneTokenFingerprint
      sessionNoAttributes mediaOneTokenFingerprint rfl rfl (Or.inl (by decide))⟩

/-- C4: `dtlsRoleFromSetupAttribute` maps "active" to DTLSRoleClient, "passive" to
DTLSRoleServer and every other text, the empty text and "actpass" included, to
DTLSRoleAuto; on every text its value is one of the three roles. -/
theorem C4_dtlsRoleFromSetupAttribute_mapping :
    dtlsRoleFromSetupAttribute "active" = DTLSRoleClient
    ∧ dtlsRoleFromSetupAttribute "passive" = DTLSRoleServer
    ∧ (∀ a : String, a ≠ "active" → a ≠ "passive" →
        dtlsRoleFromSetupAttribute a = DTLSRoleAuto)
    ∧ dtlsRoleFromSetupAttribute "" = DTLSRoleAuto
    ∧ dtlsRoleFromSetupAttribute "actpass" = DTLSRoleAuto
    ∧ (∀ a : String, dtlsRoleFromSetupAttribute a = DTLSRoleAuto
        ∨ dtlsRoleFromSetupAttribute a = DTLSRoleClient
        ∨ dtlsRoleFromSetupAttribute a = DTLSRoleServer) := by
  refine ⟨by decide, by decide, ?_, by decide, by decide, ?_⟩
  · intro a h1 h2
    simp [dtlsRoleFromSetupAttribute, h1, h2]
  · intro a
    unfold dtlsRoleFromSetupAttribute
    split
    · exact Or.inr (Or.inl rfl)
    · split
      · exact Or.inr (Or.inr rfl)
      · exact Or.inl rfl

/-- C4, at a concrete input: the text "holdconn" is neither "active" nor "passive". -/
theorem C4_dtlsRoleFromSetupAttribute_mapping_witness :
    "holdconn" ≠ "active" ∧ "holdconn" ≠ "passive"
    ∧ dtlsRoleFromSetupAttribute "holdconn" = DTLSRoleAuto :=
  ⟨by decide, by decide,
    C4_dtlsRoleFromSetupAttribute_mapping.2.2.1 "holdconn" (by decide) (by decide)⟩

/-- C5: for every media description and session description, `dtlsRoleFromSdp` returns
the role mapped from the media-level "setup" attribute when it is present, whatever the
session level holds; the role mapped from the session-level "setup" attribute when the
media level has none and the session level has one; and DTLSRoleAuto when neither level
has one. -/
theorem C5_dtlsRoleFromSdp_prefers_media_level (media : MediaDescription)
    (sess : SessionDescription) :
    (∀ v : String, media.Attribute "setup" = (v, true) →
        dtlsRoleFromSdp media sess = dtlsRoleFromSetupAttribute v)
    ∧ ((media.Attribute "setup").2 = false →
        ∀ v : String, sess.Attribute "setup" = (v, true) →
          dtlsRoleFromSdp media sess = dtlsRoleFromSetupAttribute v)
    ∧ ((media.Attribute "setup").2 = false → (sess.Attribute "setup").2 = false →
        dtlsRoleFromSdp media sess = DTLSRoleAuto) := by
  refine ⟨?_, ?_, ?_⟩
  · intro v hv
    simp [dtlsRoleFromSdp, hv]
  · intro hm v hv
    have hm2 : media.Attribute "setup" = ((media.Attribute "setup").1, false) := by
      rw [← hm]
    unfold dtlsRoleFromSdp
    rw [hm2]
    simp [hv]
  · intro hm hs
    have hm2 : media.Attribute "setup" = ((media.Attribute "setup").1, false) := by
      rw [← hm]
    have hs2 : sess.Attribute "setup" = ((sess.Attribute "setup").1, false) := by
      rw [← hs]
    unfold dtlsRoleFromSdp
    rw [hm2]
    simp only [Bool.not_false, if_true]
    rw [hs2]
    simp

/-- C5, at concrete inputs: a media-level "passive" wins over a session-level "active",
and a session-level "active" is used when the media level has no "setup". -/
theorem C5_dtlsRoleFromSdp_prefers_media_level_witness :
    dtlsRoleFromSdp { Media := "audio", Attributes := [{ Key := "setup", Value := "passive" }] }
        { Attributes := [{ Key := "setup", Value := "active" }] } = DTLSRoleServer
    ∧ dtlsRoleFromSdp { Media := "audio", Attributes := [{ Key := "mid", Value := "0" }] }
        { Attributes := [{ Key := "setup", Value := "active" }] } = DTLSRoleClient
    ∧ dtlsRoleFromSdp { Media := "audio", Attributes := [] } { Attributes := [] }
        = DTLSRoleAuto :=
  ⟨(C5_dtlsRoleFromSdp_prefers_media_level
      { Media := "audio", Attributes := [{ Key := "setup", Value := "passive" }] }
      { Attributes := [{ Key := "setup", Value := "active" }] }).1 "passive" (by decide),
    (C5_dtlsRoleFromSdp_prefers_media_level
      { Media := "audio", Attributes := [{ Key := "mid", Value := "0" }] }
      { Attributes := [{ Key := "setup", Value := "active" }] }).2.1 (by decide)
        "active" (by decide),
    (C5_dtlsRoleFromSdp_prefers_media_level
      { Media := "audio", Attributes := [] } { Attributes := [] }).2.2
        (by decide) (by decide)⟩

theorem transportGetDtlsParams_media_level (pc : PeerConnection) (t : MediaTransport)
    (sess : SessionDescription) (media : MediaDescription) (f : String)
    (hsess : pc.currentLocalDescription = some sess)
    (hmedia : t.getLocalMediaDescription = some (some media))
    (hf : media.Attribute "fingerprint" = (f, true)) :
    transportGetDtlsParams pc t = some (dtlsParamsFromFingerprint t.getDtlsRole f) := by
  simp [transportGetDtlsParams, hsess, hmedia, hf]

theorem transportGetDtlsParams_session_level (pc : PeerConnection) (t : MediaTransport)
    (sess : SessionDescription) (media : MediaDescription) (f : String)
    (hsess : pc.currentLocalDescription = some sess)
    (hmedia : t.getLocalMediaDescription = some (some media))
    (hm : (media.Attribute "fingerprint").2 = false)
    (hf : sess.Attribute "fingerprint" = (f, true)) :
    transportGetDtlsParams pc t = some (dtlsParamsFromFingerprint t.getDtlsRole f) := by
  have hm2 : media.Attribute "fingerprint" = ((media.Attribute "fingerprint").1, false) := by
    rw [← hm]
  simp only [transportGetDtlsParams, hsess, hmedia]
  rw [hm2]
  simp [hf]

theorem transportGetDtlsParams_absent (pc : PeerConnection) (t : MediaTransport)
    (sess : SessionDescription) (media : MediaDescription)
    (hsess : pc.currentLocalDescription = some sess)
    (hmedia : t.getLocalMediaDescription = some (some media))
    (hm : (media.Attribute "fingerprint").2 = false)
    (hs : (sess.Attribute "fingerprint").2 = false) :
    transportGetDtlsParams pc t = some (GoResult.error "fingerprint attribute not found") := by
  have hm2 : media.Attribute "fingerprint" = ((media.Attribute "fingerprint").1, false) := by
    rw [← hm]
  have hs2 : sess.Attribute "fingerprint" = ((sess.Attribute "fingerprint").1, false) := by
    rw [← hs]
  simp only [transportGetDtlsParams, hsess, hmedia]
  rw [hm2]
  simp only [Bool.not_false, if_true]
  rw [hs2]
  simp

/-- C6: for a transport with a local media description and a connection with a current
local description, `transportGetDtlsParams` takes the fingerprint from the media-level
"fingerprint" attribute when present and otherwise from the session-level one, returning
the two tokens of the chosen value with the transport's role; and it returns an error (and
no parameters) if and only if the attribute is absent at both levels or the chosen value
does not split into exactly two tokens. -/
theorem C6_transportGetDtlsParams_fingerprint_lookup (pc : PeerConnection)
    (t : MediaTransport) (sess : SessionDescription) (media : MediaDescription)
    (hsess : pc.currentLocalDescription = some sess)
    (hmedia : t.getLocalMediaDescription = some (some media)) :
    (∀ f a v : String, media.Attribute "fingerprint" = (f, true) →
        stringsSplit f = [a, v] →
        transportGetDtlsParams pc t = some (GoResult.ok
          { Role := t.getDtlsRole, Fingerprints := [{ Algorithm := a, Value := v }] }))
    ∧ (∀ f a v : String, (media.Attribute "fingerprint").2 = false →
        sess.Attribute "fingerprint" = (f, true) → stringsSplit f = [a, v] →
        transportGetDtlsParams pc t = some (GoResult.ok
          { Role := t.getDtlsRole, Fingerprints := [{ Algorithm := a, Value := v }] }))
    ∧ ((∃ msg, transportGetDtlsParams pc t = some (GoResult.error msg))
        ↔ ((media.Attribute "fingerprint").2 = false
              ∧ (sess.Attribute "fingerprint").2 = false)
          ∨ ((media.Attribute "fingerprint").2 = true
              ∧ (stringsSplit (media.Attribute "fingerprint").1).length ≠ 2)
          ∨ ((media.Attribute "fingerprint").2 = false
              ∧ (sess.Attribute "fingerprint").2 = true
              ∧ (stringsSplit (sess.Attribute "fingerprint").1).length ≠ 2)) := by
  refine ⟨?_, ?_, ?_⟩
  · intro f a v hf hsplit
    rw [transportGetDtlsParams_media_level pc t sess media f hsess hmedia hf,
      dtlsParamsFromFingerprint_two _ f a v hsplit]
  · intro f a v hm hf hsplit
    rw [transportGetDtlsParams_session_level pc t sess media f hsess hmedia hm hf,
      dtlsParamsFromFingerprint_two _ f a v hsplit]
  · cases hm : (media.Attribute "fingerprint").2 with
    | true =>
      have hf : media.Attribute "fingerprint" = ((media.Attribute "fingerprint").1, true) := by
        rw [← hm]
      rw [transportGetDtlsParams_media_level pc t sess media _ hsess hmedia hf]
      simp only [Option.some.injEq, dtlsParamsFromFingerprint_error_iff]
      simp
    | false =>
      cases hs : (sess.Attribute "fingerprint").2 with
      | true =>
        have hf : sess.Attribute "fingerprint"
            = ((sess.Attribute "fingerprint").1, true) := by
          rw [← hs]
        rw [transportGetDtlsParams_session_level pc t sess media _ hsess hmedia hm hf]
        simp only [Option.some.injEq, dtlsParamsFromFingerprint_error_iff]
        simp
      | false =>
        rw [transportGetDtlsParams_absent pc t sess media hsess hmedia hm hs]
        simp

/-- C6, at a concrete input: the media-level fingerprint "sha-256 12:34" is taken although
the session level has "sha-256 AB:CD". -/
theorem C6_transportGetDtlsParams_fingerprint_lookup_witness :
    connectionWithFingerprint.currentLocalDescription = some sessionWithFingerprint
    ∧ transportCreatedWithTransceiver.getLocalMediaDescription
        = some (some mediaWithFingerprint)
    ∧ transportGetDtlsParams connectionWithFingerprint transportCreatedWithTransceiver
        = some (GoResult.ok
          { Role := transportCreatedWithTransceiver.getDtlsRole,
            Fingerprints := [{ Algorithm := "sha-256", Value := "12:34" }] }) :=
  ⟨rfl, rfl,
    (C6_transportGetDtlsParams_fingerprint_lookup connectionWithFingerprint
      transportCreatedWithTransceiver sessionWithFingerprint mediaWithFingerprint
      rfl rfl).1 "sha-256 12:34" "sha-256" "12:34" (by decide) (by decide)⟩

/-! ## RTCP writes, candidates and the DTLS phase -/

/-- C7 (as stated, refuted): on a transport created by `MediaTransportCreate`, before any
secure session exists (`getSRTCPSession` returns its error), `WriteRTCP` of two packets that
marshal successfully returns a nil error: the call reports no failure. -/
theorem C7_WriteRTCP_returns_nil_without_session :
    Option.map DTLSTransport.getSRTCPSession transportCreatedWithTransceiver.DTLSTransport
        = some (GoResult.error "the DTLS transport has not started yet")
    ∧ marshalConcat [[128, 200], [129, 201]] = GoResult.ok [128, 200, 129, 201]
    ∧ transportCreatedWithTransceiver.WriteRTCP marshalConcat [[128, 200], [129, 201]]
        = some (none, []) := by
  decide

/-- C7 (amended): for every list of RTCP packets that marshals successfully,
`WriteRTCP` called while `getSRTCPSession` fails does not panic, writes nothing and returns
nil (no failure is reported): the packets are silently discarded. -/
theorem C7_WriteRTCP_discards_without_session
    (marshal : List RTCPPacket → GoResult (List Nat)) (t : MediaTransport)
    (pkts : List RTCPPacket) (raw : List Nat) (dtls : DTLSTransport) (msg : String)
    (hmarshal : marshal pkts = GoResult.ok raw)
    (hdtls : t.DTLSTransport = some dtls)
    (hsession : dtls.getSRTCPSession = GoResult.error msg) :
    t.WriteRTCP marshal pkts = some (none, []) := by
  simp [MediaTransport.WriteRTCP, hmarshal, hdtls, hsession]

/-- C7 (amended), at a concrete input: the transport created by `MediaTransportCreate`. -/
theorem C7_WriteRTCP_discards_without_session_witness :
    marshalConcat [[128, 200]] = GoResult.ok [128, 200]
    ∧ transportCreatedWithTransceiver.DTLSTransport
        = some { transport := 1, iceTransport := 1 }
    ∧ transportCreatedWithTransceiver.WriteRTCP marshalConcat [[128, 200]]
        = some (none, []) :=
  ⟨by decide, by decide,
    C7_WriteRTCP_discards_without_session marshalConcat transportCreatedWithTransceiver
      [[128, 200]] [128, 200] { transport := 1, iceTransport := 1 }
      "the DTLS transport has not started yet" (by decide) (by decide) (by decide)⟩

/-- C8 (as stated, refuted): with a candidate handler registered, the dispatch loop
processing an `iceCandidateEvent` whose candidate is nil makes no call at all: the handler
is not invoked. -/
theorem C8_nil_candidate_not_forwarded :
    connectionWithFingerprint.onICECandidateHandler = true
    ∧ connectionWithFingerprint.dispatch (Event.iceCandidateEvent 1 none)
        = (connectionWithFingerprint, [], true) := by
  decide

/-- C8 (amended): when the dispatch loop processes an `iceCandidateEvent` and a candidate
handler is registered, the handler is invoked exactly once, with the event's candidate,
for every non-nil candidate; for a nil candidate the handler is not invoked by this path.
In both cases the connection is unchanged and the loop goes on. -/
theorem C8_candidate_forwarded_iff_not_nil (pc : PeerConnection) (transport : Nat)
    (hhandler : pc.onICECandidateHandler = true) :
    (∀ candidate : ICECandidate,
        pc.dispatch (Event.iceCandidateEvent transport (some candidate))
          = (pc, [Effect.onICECandidateHandler (some candidate)], true))
    ∧ pc.dispatch (Event.iceCandidateEvent transport none) = (pc, [], true) := by
  constructor
  · intro candidate
    simp [PeerConnection.dispatch, PeerConnection.handleIceCandidate, hhandler]
  · simp [PeerConnection.dispatch, PeerConnection.handleIceCandidate]

/-- C8 (amended), at a concrete input: a host candidate on transport 1. -/
theorem C8_candidate_forwarded_iff_not_nil_witness :
    connectionWithFingerprint.onICECandidateHandler = true
    ∧ connectionWithFingerprint.dispatch
        (Event.iceCandidateEvent 1 (some { foundation := "host1" }))
      = (connectionWithFingerprint,
          [Effect.onICECandidateHandler (some { foundation := "host1" })], true) :=
  ⟨rfl, (C8_candidate_forwarded_iff_not_nil connectionWithFingerprint 1 rfl).1
    { foundation := "host1" }⟩

theorem transportIceConnected_calls (pc : PeerConnection) (t : MediaTransport)
    (calls : List Effect) (params : DTLSParameters)
    (hcalls : transportIceConnected pc t = some calls)
    (hstart : Effect.dtlsStart params ∈ calls) :
    transportGetDtlsParams pc t = some (GoResult.ok params) := by
  unfold transportIceConnected at hcalls
  split at hcalls
  · exact absurd hcalls (by simp)
  · simp only [Option.some.injEq] at hcalls
    rw [← hcalls] at hstart
    simp at hstart
  · rename_i dtlsParams heq
    simp only [Option.some.injEq] at hcalls
    rw [← hcalls] at hstart
    simp only [List.mem_singleton, Effect.dtlsStart.injEq] at hstart
    rw [heq, hstart]

theorem dtlsParamsFromFingerprint_role (role : DTLSRole) (fingerprint : String)
    (params : DTLSParameters)
    (h : dtlsParamsFromFingerprint role fingerprint = GoResult.ok params) :
    params.Role = role := by
  unfold dtlsParamsFromFingerprint at h
  split at h
  · simp only [GoResult.ok.injEq] at h
    rw [← h]
  · simp at h

theorem transportGetDtlsParams_role (pc : PeerConnection) (t : MediaTransport)
    (params : DTLSParameters)
    (h : transportGetDtlsParams pc t = some (GoResult.ok params)) :
    params.Role = t.getDtlsRole := by
  unfold transportGetDtlsParams at h
  split at h
  · exact absurd h (by simp)
  · split at h
    · simp only [] at h
      (repeat' split at h) <;>
        first
          | exact dtlsParamsFromFingerprint_role _ _ _ (Option.some.inj h)
          | simp at h
    · exact absurd h (by simp)

/-- C9 (as stated, refuted): on the transport returned by `MediaTransportCreate`, with a
transceiver whose local media description has a well-formed fingerprint attached,
`transportIceConnected` invokes the DTLS Start with the Role DTLSRoleAuto. -/
theorem C9_dtls_start_with_role_auto :
    transportIceConnected connectionWithFingerprint transportCreatedWithTransceiver
      = some [Effect.dtlsStart
          { Role := DTLSRoleAuto,
            Fingerprints := [{ Algorithm := "sha-256", Value := "12:34" }] }] := by
  decide

/-- C9 (amended): whenever `transportIceConnected` invokes the DTLS Start, the Role in the
parameters passed is the role stored in the transport at that moment (`getDtlsRole`); for
a transport as returned by `MediaTransportCreate`, with any transceivers attached, that
Role is DTLSRoleAuto. -/
theorem C9_dtls_start_role_is_stored_role (pc : PeerConnection) (t : MediaTransport)
    (calls : List Effect) (params : DTLSParameters)
    (hcalls : transportIceConnected pc t = some calls)
    (hstart : Effect.dtlsStart params ∈ calls) :
    params.Role = t.getDtlsRole
    ∧ (∀ (newICEGatherer : GoResult Nat) (newDTLSTransport : GoResult DTLSTransport)
        (transceivers : List RTPTransceiver),
        t = { MediaTransportCreate newICEGatherer newDTLSTransport
                with RTPTransceivers := transceivers } →
        params.Role = DTLSRoleAuto) := by
  have hrole := transportGetDtlsParams_role pc t params
    (transportIceConnected_calls pc t calls params hcalls hstart)
  refine ⟨hrole, ?_⟩
  intro g d trs ht
  rw [hrole, ht]
  cases g <;> cases d <;> rfl

/-- C9 (amended), at concrete inputs: after `setDtlsRole(DTLSRoleClient)` on the created
transport the Start is invoked with the stored role, DTLSRoleClient; on the created
transport itself the role passed is DTLSRoleAuto. -/
theorem C9_dtls_start_role_is_stored_role_witness :
    transportIceConnected connectionWithFingerprint
        (transportCreatedWithTransceiver.setDtlsRole DTLSRoleClient)
      = some [Effect.dtlsStart
          { Role := DTLSRoleClient,
            Fingerprints := [{ Algorithm := "sha-256", Value := "12:34" }] }]
    ∧ DTLSParameters.Role
        { Role := DTLSRoleClient,
          Fingerprints := [{ Algorithm := "sha-256", Value := "12:34" }] }
      = (transportCreatedWithTransceiver.setDtlsRole DTLSRoleClient).getDtlsRole
    ∧ transportIceConnected connectionWithFingerprint transportCreatedWithTransceiver
      = some [Effect.dtlsStart
          { Role := DTLSRoleAuto,
            Fingerprints := [{ Algorithm := "sha-256", Value := "12:34" }] }]
    ∧ DTLSParameters.Role
        { Role := DTLSRoleAuto,
          Fingerprints := [{ Algorithm := "sha-256", Value := "12:34" }] }
      = DTLSRoleAuto :=
  ⟨by decide,
    (C9_dtls_start_role_is_stored_role connectionWithFingerprint
      (transportCreatedWithTransceiver.setDtlsRole DTLSRoleClient)
      [Effect.dtlsStart
        { Role := DTLSRoleClient,
          Fingerprints := [{ Algorithm := "sha-256", Value := "12:34" }] }]
      { Role := DTLSRoleClient,
        Fingerprints := [{ Algorithm := "sha-256", Value := "12:34" }] }
      (by decide) (by decide)).1,
    by decide,
    (C9_dtls_start_role_is_stored_role connectionWithFingerprint
      transportCreatedWithTransceiver
      [Effect.dtlsStart
        { Role := DTLSRoleAuto,
          Fingerprints := [{ Algorithm := "sha-256", Value := "12:34" }] }]
      { Role := DTLSRoleAuto,
        Fingerprints := [{ Algorithm := "sha-256", Value := "12:34" }] }
      (by decide) (by decide)).2
      (GoResult.ok 1) (GoResult.ok { transport := 1, iceTransport := 1 })
      [transceiverSendrecv] rfl⟩

/-- C10 (the code at the failing input): for every connection and media transport, a
`dtlsStateEvent` with state Connected processed by the wired cascade is only forwarded to
the connection, which records the state and makes no further call: no receiver is started,
no Send is attempted and the drain routine is not started. On the concrete transport
`transportCreatedWithTransceiver` the unwired method `MediaTransport.handleEvent` does
perform the activation on that same event. -/
theorem C10_cascade_does_not_activate_srtp :
    (∀ (pc : PeerConnection) (t : MediaTransport) (transport : Nat),
      cascade pc t [Event.dtlsStateEvent transport DTLSTransportState.Connected]
        = some ({ pc with dtlsStates :=
                    mapSet pc.dtlsStates transport DTLSTransportState.Connected },
            [Effect.pcEvents
              (Event.dtlsStateEvent transport DTLSTransportState.Connected)]))
    ∧ transportCreatedWithTransceiver.handleEvent collaboratorsInOrder
        { connectionWithFingerprint with rtpTransceivers := [transceiverSendrecv] }
        (Event.dtlsStateEvent 1 DTLSTransportState.Connected)
      = some ({ connectionWithFingerprint with rtpTransceivers := [transceiverSendrecv] },
          [Effect.startReceiver { kind := 1, label := "stream1", id := "track1", ssrc := 1111 }
              (some { receiver := 8 }),
            Effect.senderSend 7 2222 96, Effect.drainSRTP]) := by
  constructor
  · intro pc t transport
    simp [cascade, MediaTransport.eventLoop, transportHandleEvent, forwarded,
      PeerConnection.startEventLoop, PeerConnection.dispatch,
      PeerConnection.handleDtlsStateTransition]
  · decide

/-! ## Rejected and adopted gathering transitions -/

/-- C15: for every connection and transport, `handleIceGatheringTransition` called with
the state New leaves the connection as it is (the aggregate gathering state included) and
makes no call: no gathering-state handler, no candidate handler and no start of ICE
connectivity establishment. -/
theorem C15_transition_to_New_is_rejected (pc : PeerConnection) (transport : Nat) :
    pc.handleIceGatheringTransition transport ICEGatheringState.New = (pc, [])
    ∧ (pc.handleIceGatheringTransition transport ICEGatheringState.New).1.iceGatheringState
        = pc.iceGatheringState := by
  have h : pc.handleIceGatheringTransition transport ICEGatheringState.New = (pc, []) := by
    unfold PeerConnection.handleIceGatheringTransition
    split <;> rfl
  exact ⟨h, by rw [h]⟩

/-- C19: when `handleIceGatheringTransition` is called with Complete while the aggregate is
not Complete and every tracked transport is Complete, the aggregate becomes Complete and
the calls made are, in this order, the gathering-state handler with Complete (if set), the
candidate handler with the nil candidate (if set), and `startIceConnection`; when some
tracked transport is not Complete, or when the requested state (whichever it is) equals
the current aggregate, no call is made and the connection is unchanged. -/
theorem C19_adopting_Complete (pc : PeerConnection) (transport : Nat) :
    (pc.iceGatheringState ≠ ICEGatheringState.Complete → pc.allTransportsComplete →
        pc.handleIceGatheringTransition transport ICEGatheringState.Complete
          = ({ pc with iceGatheringState := ICEGatheringState.Complete },
              (if pc.onICEGatheringStateHandler
                then [Effect.onICEGatheringStateHandler ICEGatheringState.Complete] else [])
              ++ (if pc.onICECandidateHandler
                then [Effect.onICECandidateHandler none] else [])
              ++ [Effect.startIceConnection]))
    ∧ (¬ pc.allTransportsComplete →
        pc.handleIceGatheringTransition transport ICEGatheringState.Complete = (pc, []))
    ∧ (∀ state : ICEGatheringState, state = pc.iceGatheringState →
        pc.handleIceGatheringTransition transport state = (pc, [])) := by
  refine ⟨?_, ?_, ?_⟩
  · intro hagg hall
    have hall2 : allKnownComplete pc.iceGatheringStates = true :=
      (allKnownComplete_iff _).2 hall
    have hagg2 : ¬ (ICEGatheringState.Complete = pc.iceGatheringState) :=
      fun h => hagg h.symm
    simp [PeerConnection.handleIceGatheringTransition, hagg2, hall2]
  · intro hall
    have hall2 : ¬ (allKnownComplete pc.iceGatheringStates = true) :=
      fun h => hall ((allKnownComplete_iff _).1 h)
    unfold PeerConnection.handleIceGatheringTransition
    split
    · rfl
    · simp [hall2]
  · intro state hstate
    simp [PeerConnection.handleIceGatheringTransition, hstate]

/-- C19, at a concrete input: a connection with both handlers set whose two tracked
transports are Complete while the aggregate is Gathering. -/
theorem C19_adopting_Complete_witness :
    connectionReadyToComplete.iceGatheringState ≠ ICEGatheringState.Complete
    ∧ connectionReadyToComplete.allTransportsComplete
    ∧ connectionReadyToComplete.handleIceGatheringTransition 2 ICEGatheringState.Complete
      = ({ connectionReadyToComplete with iceGatheringState := ICEGatheringState.Complete },
          [Effect.onICEGatheringStateHandler ICEGatheringState.Complete,
            Effect.onICECandidateHandler none, Effect.startIceConnection]) :=
  ⟨by decide, by decide,
    (C19_adopting_Complete connectionReadyToComplete 2).1 (by decide) (by decide)⟩

/-! ## Stopping a transceiver -/

/-- C16: `RTPTransceiver.Stop` stops the Sender (if present) and then the Receiver (if
present), in that order. If the Sender's Stop fails, its error is returned and the
Receiver's Stop is not called; otherwise the result is that of the Receiver's Stop; the
result is nil when both are absent or both succeed. -/
theorem C16_Stop_sender_then_receiver (t : RTPTransceiver) :
    (∀ (sender : RTPSender) (err : String), t.Sender = some sender →
        sender.stopErr = some err →
        t.Stop = (some err, [Effect.senderStop sender.sender]))
    ∧ (∀ (sender : RTPSender) (receiver : RTPReceiver), t.Sender = some sender →
        sender.stopErr = none → t.Receiver = some receiver →
        t.Stop = (receiver.stopErr,
          [Effect.senderStop sender.sender, Effect.receiverStop receiver.receiver]))
    ∧ (∀ sender : RTPSender, t.Sender = some sender → sender.stopErr = none →
        t.Receiver = none → t.Stop = (none, [Effect.senderStop sender.sender]))
    ∧ (∀ receiver : RTPReceiver, t.Sender = none → t.Receiver = some receiver →
        t.Stop = (receiver.stopErr, [Effect.receiverStop receiver.receiver]))
    ∧ (t.Sender = none → t.Receiver = none → t.Stop = (none, [])) := by
  refine ⟨?_, ?_, ?_, ?_, ?_⟩
  · intro sender err hs he
    simp [RTPTransceiver.Stop, hs, he]
  · intro sender receiver hs he hr
    cases hre : receiver.stopErr <;> simp [RTPTransceiver.Stop, hs, he, hr, hre]
  · intro sender hs he hr
    simp [RTPTransceiver.Stop, hs, he, hr]
  · intro receiver hs hr
    cases hre : receiver.stopErr <;> simp [RTPTransceiver.Stop, hs, hr, hre]
  · intro hs hr
    simp [RTPTransceiver.Stop, hs, hr]

/-- C16, at concrete inputs: a Sender whose Stop fails keeps the Receiver from being
stopped; with both succeeding, both are stopped in order and nil is returned. -/
theorem C16_Stop_sender_then_receiver_witness :
    transceiverSenderStopFails.Stop
        = (some "sender already stopped", [Effect.senderStop 7])
    ∧ transceiverSendrecv.Stop = (none, [Effect.senderStop 7, Effect.receiverStop 8]) :=
  ⟨(C16_Stop_sender_then_receiver transceiverSenderStopFails).1
      { sender := 7, stopErr := some "sender already stopped" } "sender already stopped"
      rfl rfl,
    (C16_Stop_sender_then_receiver transceiverSendrecv).2.1
      { sender := 7, track := some { ssrc := 2222, payloadType := 96 } }
      { receiver := 8 } rfl rfl rfl⟩

/-! ## Event forwarding, DTLS start and termination -/

theorem transportIceConnected_ok (pc : PeerConnection) (t : MediaTransport)
    (params : DTLSParameters)
    (h : transportGetDtlsParams pc t = some (GoResult.ok params)) :
    transportIceConnected pc t = some [Effect.dtlsStart params] := by
  simp [transportIceConnected, h]

theorem transportIceConnected_error (pc : PeerConnection) (t : MediaTransport)
    (msg : String)
    (h : transportGetDtlsParams pc t = some (GoResult.error msg)) :
    transportIceConnected pc t = some [] := by
  simp [transportIceConnected, h]

/-- C12: `transportHandleEvent` forwards an `iceGatheringEvent`, an `iceCandidateEvent`, a
`dtlsStateEvent` and an `iceStateEvent` unchanged and exactly once to the connection's
event channel and returns true. The DTLS Start is invoked, once and before the forward,
exactly for an `iceStateEvent` with state Connected for which `transportGetDtlsParams`
succeeds; it is invoked for no other event, for no other ICE state, and not when
`transportGetDtlsParams` returns an error. -/
theorem C12_transportHandleEvent_forwards (pc : PeerConnection) (t : MediaTransport)
    (transport : Nat) :
    (∀ state : ICEGatheringState,
        transportHandleEvent pc t (Event.iceGatheringEvent transport state)
          = some (true, [Effect.pcEvents (Event.iceGatheringEvent transport state)]))
    ∧ (∀ candidate : Option ICECandidate,
        transportHandleEvent pc t (Event.iceCandidateEvent transport candidate)
          = some (true, [Effect.pcEvents (Event.iceCandidateEvent transport candidate)]))
    ∧ (∀ state : DTLSTransportState,
        transportHandleEvent pc t (Event.dtlsStateEvent transport state)
          = some (true, [Effect.pcEvents (Event.dtlsStateEvent transport state)]))
    ∧ (∀ state : ICETransportState, state ≠ ICETransportState.Connected →
        transportHandleEvent pc t (Event.iceStateEvent transport state)
          = some (true, [Effect.pcEvents (Event.iceStateEvent transport state)]))
    ∧ (∀ params : DTLSParameters,
        transportGetDtlsParams pc t = some (GoResult.ok params) →
        transportHandleEvent pc t
            (Event.iceStateEvent transport ICETransportState.Connected)
          = some (true, [Effect.dtlsStart params,
              Effect.pcEvents (Event.iceStateEvent transport ICETransportState.Connected)]))
    ∧ (∀ msg : String,
        transportGetDtlsParams pc t = some (GoResult.error msg) →
        transportHandleEvent pc t
            (Event.iceStateEvent transport ICETransportState.Connected)
          = some (true,
              [Effect.pcEvents
                (Event.iceStateEvent transport ICETransportState.Connected)]))
    ∧ (∀ (evt : Event) (r : Bool × List Effect) (params : DTLSParameters),
        transportHandleEvent pc t evt = some r → Effect.dtlsStart params ∈ r.2 →
        (∃ tr, evt = Event.iceStateEvent tr ICETransportState.Connected)
          ∧ transportGetDtlsParams pc t = some (GoResult.ok params)) := by
  refine ⟨?_, ?_, ?_, ?_, ?_, ?_, ?_⟩
  · intro state; rfl
  · intro candidate; rfl
  · intro state; rfl
  · intro state hne
    simp [transportHandleEvent, hne]
  · intro params h
    simp [transportHandleEvent, transportIceConnected_ok pc t params h]
  · intro msg h
    simp [transportHandleEvent, transportIceConnected_error pc t msg h]
  · intro evt r params hr hmem
    cases evt with
    | iceStateEvent tr state =>
      by_cases hst : state = ICETransportState.Connected
      · subst hst
        refine ⟨⟨tr, rfl⟩, ?_⟩
        simp only [transportHandleEvent, if_true] at hr
        cases hic : transportIceConnected pc t with
        | none => rw [hic] at hr; simp at hr
        | some calls =>
          rw [hic] at hr
          simp only [Option.some.injEq] at hr
          rw [← hr] at hmem
          simp only [List.mem_append, List.mem_singleton] at hmem
          rcases hmem with hmem | hmem
          · exact transportIceConnected_calls pc t calls params hic hmem
          · exact absurd hmem (by simp)
      · simp only [transportHandleEvent, hst, if_false, Option.some.injEq] at hr
        rw [← hr] at hmem
        simp at hmem
    | _ =>
      simp only [transportHandleEvent, Option.some.injEq] at hr
      rw [← hr] at hmem
      simp at hmem

/-- C12, at a concrete input: ICE connected on the created transport starts DTLS with the
resolved parameters and then forwards the event. -/
theorem C12_transportHandleEvent_forwards_witness :
    transportGetDtlsParams connectionWithFingerprint transportCreatedWithTransceiver
        = some (GoResult.ok
            { Role := DTLSRoleAuto,
              Fingerprints := [{ Algorithm := "sha-256", Value := "12:34" }] })
    ∧ transportHandleEvent connectionWithFingerprint transportCreatedWithTransceiver
          (Event.iceStateEvent 1 ICETransportState.Connected)
        = some (true,
            [Effect.dtlsStart
                { Role := DTLSRoleAuto,
                  Fingerprints := [{ Algorithm := "sha-256", Value := "12:34" }] },
              Effect.pcEvents (Event.iceStateEvent 1 ICETransportState.Connected)])
    ∧ transportHandleEvent connectionWithFingerprint transportCreatedWithTransceiver
          (Event.iceStateEvent 1 ICETransportState.Checking)
        = some (true, [Effect.pcEvents (Event.iceStateEvent 1 ICETransportState.Checking)]) :=
  ⟨by decide,
    (C12_transportHandleEvent_forwards connectionWithFingerprint
      transportCreatedWithTransceiver 1).2.2.2.2.1 _ (by decide),
    (C12_transportHandleEvent_forwards connectionWithFingerprint
      transportCreatedWithTransceiver 1).2.2.2.1 ICETransportState.Checking (by decide)⟩

/-- C13 (as stated, refuted): two `iceStateEvent`s with state Connected for the created
transport, with no Disconnect between them, make the transport's loop invoke the DTLS
Start twice. -/
theorem C13_second_connected_restarts_dtls :
    transportCreatedWithTransceiver.eventLoop connectionWithFingerprint
        [Event.iceStateEvent 1 ICETransportState.Connected,
          Event.iceStateEvent 1 ICETransportState.Connected]
      = some
        [Effect.dtlsStart
            { Role := DTLSRoleAuto,
              Fingerprints := [{ Algorithm := "sha-256", Value := "12:34" }] },
          Effect.pcEvents (Event.iceStateEvent 1 ICETransportState.Connected),
          Effect.dtlsStart
            { Role := DTLSRoleAuto,
              Fingerprints := [{ Algorithm := "sha-256", Value := "12:34" }] },
          Effect.pcEvents (Event.iceStateEvent 1 ICETransportState.Connected)] := by
  decide

/-- C13 (amended): for every transport with resolvable DTLS parameters, each
`iceStateEvent` with state Connected processed through `transportHandleEvent` invokes the
DTLS Start once with those parameters: two such events with no Disconnect between them
invoke it twice. -/
theorem C13_each_connected_starts_dtls (pc : PeerConnection) (t : MediaTransport)
    (transport : Nat) (params : DTLSParameters)
    (h : transportGetDtlsParams pc t = some (GoResult.ok params)) :
    t.eventLoop pc
        [Event.iceStateEvent transport ICETransportState.Connected,
          Event.iceStateEvent transport ICETransportState.Connected]
      = some
        [Effect.dtlsStart params,
          Effect.pcEvents (Event.iceStateEvent transport ICETransportState.Connected),
          Effect.dtlsStart params,
          Effect.pcEvents (Event.iceStateEvent transport ICETransportState.Connected)] := by
  simp [MediaTransport.eventLoop, transportHandleEvent,
    transportIceConnected_ok pc t params h]

/-- C13 (amended), at a concrete input: the created transport after
`setDtlsRole(DTLSRoleServer)`. -/
theorem C13_each_connected_starts_dtls_witness :
    transportGetDtlsParams connectionWithFingerprint
        (transportCreatedWithTransceiver.setDtlsRole DTLSRoleServer)
      = some (GoResult.ok
          { Role := DTLSRoleServer,
            Fingerprints := [{ Algorithm := "sha-256", Value := "12:34" }] })
    ∧ (transportCreatedWithTransceiver.setDtlsRole DTLSRoleServer).eventLoop
        connectionWithFingerprint
        [Event.iceStateEvent 4 ICETransportState.Connected,
          Event.iceStateEvent 4 ICETransportState.Connected]
      = some
        [Effect.dtlsStart
            { Role := DTLSRoleServer,
              Fingerprints := [{ Algorithm := "sha-256", Value := "12:34" }] },
          Effect.pcEvents (Event.iceStateEvent 4 ICETransportState.Connected),
          Effect.dtlsStart
            { Role := DTLSRoleServer,
              Fingerprints := [{ Algorithm := "sha-256", Value := "12:34" }] },
          Effect.pcEvents (Event.iceStateEvent 4 ICETransportState.Connected)] :=
  ⟨by decide,
    C13_each_connected_starts_dtls connectionWithFingerprint
      (transportCreatedWithTransceiver.setDtlsRole DTLSRoleServer) 4 _ (by decide)⟩

theorem dispatch_continues (pc : PeerConnection) (evt : Event)
    (h : evt ≠ Event.terminationEvent) : (pc.dispatch evt).2.2 = true := by
  cases evt <;> first | rfl | exact absurd rfl h

theorem startEventLoop_cons_continue (pc : PeerConnection) (evt : Event)
    (rest : List Event) (h : evt ≠ Event.terminationEvent) :
    pc.startEventLoop (evt :: rest)
      = (((pc.dispatch evt).1.startEventLoop rest).1,
          (pc.dispatch evt).2.1 ++ ((pc.dispatch evt).1.startEventLoop rest).2) := by
  have hc := dispatch_continues pc evt h
  rw [PeerConnection.startEventLoop]
  match hd : pc.dispatch evt with
  | (pc1, calls, true) => rfl
  | (pc1, calls, false) => rw [hd] at hc; exact absurd hc (by simp)

theorem startEventLoop_stops_at_termination (pre post : List Event) :
    ∀ pc : PeerConnection, Event.terminationEvent ∉ pre →
      pc.startEventLoop (pre ++ Event.terminationEvent :: post) = pc.startEventLoop pre := by
  induction pre with
  | nil =>
    intro pc _
    simp [PeerConnection.startEventLoop, PeerConnection.dispatch]
  | cons evt rest ih =>
    intro pc hpre
    have hne : evt ≠ Event.terminationEvent := fun h => hpre (by simp [h])
    have hrest : Event.terminationEvent ∉ rest := fun h => hpre (List.mem_cons_of_mem _ h)
    rw [List.cons_append, startEventLoop_cons_continue pc evt _ hne,
      startEventLoop_cons_continue pc evt _ hne, ih _ hrest]

theorem transportHandleEvent_false_iff (pc : PeerConnection) (t : MediaTransport)
    (evt : Event) (b : Bool) (calls : List Effect)
    (h : transportHandleEvent pc t evt = some (b, calls)) :
    b = false ↔ evt = Event.terminationEvent := by
  cases evt with
  | terminationEvent =>
    simp only [transportHandleEvent, Option.some.injEq, Prod.mk.injEq] at h
    simp [← h.1]
  | iceStateEvent tr state =>
    by_cases hst : state = ICETransportState.Connected
    · subst hst
      simp only [transportHandleEvent, if_true] at h
      cases hic : transportIceConnected pc t with
      | none => rw [hic] at h; simp at h
      | some found =>
        rw [hic] at h
        simp only [Option.some.injEq, Prod.mk.injEq] at h
        simp [← h.1]
    · simp only [transportHandleEvent, hst, if_false, Option.some.injEq,
        Prod.mk.injEq] at h
      simp [← h.1]
  | _ =>
    simp only [transportHandleEvent, Option.some.injEq, Prod.mk.injEq] at h
    simp [← h.1]

theorem eventLoop_stops_at_termination (pc : PeerConnection) (t : MediaTransport)
    (pre post : List Event) (hpre : Event.terminationEvent ∉ pre) :
    t.eventLoop pc (pre ++ Event.terminationEvent :: post) = t.eventLoop pc pre := by
  induction pre with
  | nil => simp [MediaTransport.eventLoop, transportHandleEvent]
  | cons evt rest ih =>
    have hrest : Event.terminationEvent ∉ rest := fun h => hpre (List.mem_cons_of_mem _ h)
    rw [List.cons_append, MediaTransport.eventLoop, MediaTransport.eventLoop, ih hrest]

/-- C14: for every sequence of events delivered to the connection's dispatch loop, the
events after the first `terminationEvent` are not processed: the connection and the calls
made are those obtained from the events before it alone. The same holds for the
transport's event loop, and `transportHandleEvent` returns false, whenever it returns, if
and only if the event is a `terminationEvent`, on which it returns false without any
call. -/
theorem C14_nothing_after_termination (pc : PeerConnection) (t : MediaTransport)
    (pre post : List Event) (hpre : Event.terminationEvent ∉ pre) :
    pc.startEventLoop (pre ++ Event.terminationEvent :: post) = pc.startEventLoop pre
    ∧ t.eventLoop pc (pre ++ Event.terminationEvent :: post) = t.eventLoop pc pre
    ∧ transportHandleEvent pc t Event.terminationEvent = some (false, [])
    ∧ (∀ (evt : Event) (b : Bool) (calls : List Effect),
        transportHandleEvent pc t evt = some (b, calls) →
        (b = false ↔ evt = Event.terminationEvent)) :=
  ⟨startEventLoop_stops_at_termination pre post pc hpre,
    eventLoop_stops_at_termination pc t pre post hpre, rfl,
    transportHandleEvent_false_iff pc t⟩

/-- C14, at a concrete input: a Complete event after the termination is not processed. -/
theorem C14_nothing_after_termination_witness :
    Event.terminationEvent ∉ [Event.iceGatheringEvent 1 ICEGatheringState.Gathering]
    ∧ connectionReadyToComplete.startEventLoop
        ([Event.iceGatheringEvent 1 ICEGatheringState.Gathering]
          ++ Event.terminationEvent
            :: [Event.iceGatheringEvent 1 ICEGatheringState.Complete])
      = connectionReadyToComplete.startEventLoop
        [Event.iceGatheringEvent 1 ICEGatheringState.Gathering] :=
  ⟨by decide,
    (C14_nothing_after_termination connectionReadyToComplete
      transportCreatedWithTransceiver
      [Event.iceGatheringEvent 1 ICEGatheringState.Gathering]
      [Event.iceGatheringEvent 1 ICEGatheringState.Complete] (by decide)).1⟩

/-! ## Secure-session activation: sending -/

theorem sendCalls_append (a b : List Effect) :
    sendCalls (a ++ b) = sendCalls a ++ sendCalls b := by
  induction a with
  | nil => rfl
  | cons e rest ih => cases e <;> simp [sendCalls, ih]

theorem sendCalls_matchIncoming (visit m : List (Nat × IncomingTrack))
    (trs : List RTPTransceiver) : sendCalls (matchIncoming visit m trs).2.2 = [] := by
  induction visit generalizing m trs with
  | nil => rfl
  | cons e rest ih =>
    obtain ⟨ssrc, incoming⟩ := e
    simp only [matchIncoming]
    split
    · exact ih _ _
    · simp [sendCalls, ih]

theorem sendCalls_addPlanBTransceivers (c : Collaborators)
    (visit : List (Nat × IncomingTrack)) (pc : PeerConnection) :
    sendCalls (addPlanBTransceivers c visit pc).2 = [] := by
  induction visit generalizing pc with
  | nil => rfl
  | cons e rest ih =>
    obtain ⟨ssrc, incoming⟩ := e
    simp only [addPlanBTransceivers]
    split
    · simp [sendCalls, ih]
    · simp [sendCalls, ih]

theorem openSRTP_eq (c : Collaborators) (pc : PeerConnection) (t : MediaTransport)
    (media : MediaDescription)
    (hmedia : t.getRemoteMediaDescription = some (some media)) :
    t.openSRTP c pc
      = if pc.remoteIsPlanB = true then
          some ((addPlanBTransceivers c
              (c.rangeOrder
                (matchIncoming
                  (c.rangeOrder (scanSSRC (NewRTPCodecType media.Media) media.Attributes []))
                  (scanSSRC (NewRTPCodecType media.Media) media.Attributes [])
                  pc.rtpTransceivers).1) pc).1,
            (matchIncoming
                (c.rangeOrder (scanSSRC (NewRTPCodecType media.Media) media.Attributes []))
                (scanSSRC (NewRTPCodecType media.Media) media.Attributes [])
                pc.rtpTransceivers).2.2
              ++ (addPlanBTransceivers c
                (c.rangeOrder
                  (matchIncoming
                    (c.rangeOrder
                      (scanSSRC (NewRTPCodecType media.Media) media.Attributes []))
                    (scanSSRC (NewRTPCodecType media.Media) media.Attributes [])
                    pc.rtpTransceivers).1) pc).2)
        else
          some (pc,
            (matchIncoming
              (c.rangeOrder (scanSSRC (NewRTPCodecType media.Media) media.Attributes []))
              (scanSSRC (NewRTPCodecType media.Media) media.Attributes [])
              pc.rtpTransceivers).2.2) := by
  simp only [MediaTransport.openSRTP, hmedia]

theorem openSRTP_panics (c : Collaborators) (pc : PeerConnection) (t : MediaTransport)
    (hmedia : ∀ media, t.getRemoteMediaDescription ≠ some (some media)) :
    t.openSRTP c pc = none := by
  unfold MediaTransport.openSRTP
  split
  · rename_i media heq
    exact absurd heq (hmedia media)
  · rfl

theorem sendCalls_openSRTP (c : Collaborators) (pc pc1 : PeerConnection)
    (t : MediaTransport) (opened : List Effect)
    (h : t.openSRTP c pc = some (pc1, opened)) : sendCalls opened = [] := by
  cases hm : t.getRemoteMediaDescription with
  | none =>
    rw [openSRTP_panics c pc t (by simp [hm])] at h
    exact absurd h (by simp)
  | some inner =>
    cases inner with
    | none =>
      rw [openSRTP_panics c pc t (by simp [hm])] at h
      exact absurd h (by simp)
    | some media =>
      rw [openSRTP_eq c pc t media hm] at h
      split at h
      · simp only [Option.some.injEq, Prod.mk.injEq] at h
        rw [← h.2, sendCalls_append, sendCalls_matchIncoming,
          sendCalls_addPlanBTransceivers]
        rfl
      · simp only [Option.some.injEq, Prod.mk.injEq] at h
        rw [← h.2, sendCalls_matchIncoming]

theorem sendAll_of_tracks (trs : List RTPTransceiver)
    (htracks : ∀ tr ∈ trs, ∀ s : RTPSender, tr.Sender = some s → s.track ≠ none) :
    sendAll trs = some (expectedSends trs) := by
  induction trs with
  | nil => rfl
  | cons tr rest ih =>
    have ih2 := ih (fun x hx => htracks x (List.mem_cons_of_mem _ hx))
    cases hs : tr.Sender with
    | none => simp [sendAll, expectedSends, hs, ih2]
    | some sender =>
      cases ht : sender.track with
      | none => exact absurd ht (htracks tr (List.mem_cons_self _ _) sender hs)
      | some track => simp [sendAll, expectedSends, hs, ht, ih2]

theorem sendCalls_expectedSends (trs : List RTPTransceiver) :
    sendCalls (expectedSends trs) = expectedSends trs := by
  induction trs with
  | nil => rfl
  | cons tr rest ih =>
    cases hs : tr.Sender with
    | none => simp [expectedSends, hs, ih]
    | some sender =>
      cases ht : sender.track with
      | none => simp [expectedSends, hs, ht, ih]
      | some track => simp [expectedSends, hs, ht, sendCalls, ih]

/-- C11: for every media transport whose transceivers are such that every Sender has an
assigned outbound track (and whose first transceiver has a remote media description, so
that `openSRTP` returns), `connectSRTP` returns, and the Send calls it makes are exactly
one for each transceiver that has a Sender with an assigned outbound track, in list order,
with the SSRC and payload type of that track; no Send is attempted for any other
transceiver. -/
theorem C11_sends_on_transceivers_with_sender (c : Collaborators) (pc : PeerConnection)
    (t : MediaTransport) (media : MediaDescription)
    (hmedia : t.getRemoteMediaDescription = some (some media))
    (htracks : ∀ tr ∈ t.RTPTransceivers, ∀ s : RTPSender,
      tr.Sender = some s → s.track ≠ none) :
    ∃ (pc1 : PeerConnection) (calls : List Effect),
      t.connectSRTP c pc = some (pc1, calls)
      ∧ sendCalls calls = expectedSends t.RTPTransceivers := by
  cases ho : t.openSRTP c pc with
  | none =>
    rw [openSRTP_eq c pc t media hmedia] at ho
    split at ho <;> simp at ho
  | some r =>
    obtain ⟨pc1, opened⟩ := r
    refine ⟨pc1, opened ++ expectedSends t.RTPTransceivers ++ [Effect.drainSRTP], ?_, ?_⟩
    · simp [MediaTransport.connectSRTP, ho, sendAll_of_tracks _ htracks]
    · rw [sendCalls_append, sendCalls_append, sendCalls_openSRTP c pc pc1 t opened ho,
        sendCalls_expectedSends]
      simp [sendCalls]

/-- C11, at a concrete input: with [sendrecv A, recvonly B], where A has a Sender with a
track and B has no Sender, the only Send is on the Sender of A. -/
theorem C11_sends_on_transceivers_with_sender_witness :
    transportSendrecvRecvonly.getRemoteMediaDescription = some (some mediaWithFingerprint)
    ∧ (∃ (pc1 : PeerConnection) (calls : List Effect),
        transportSendrecvRecvonly.connectSRTP collaboratorsInOrder connectionWithFingerprint
          = some (pc1, calls)
        ∧ sendCalls calls = [Effect.senderSend 7 2222 96]) :=
  ⟨rfl,
    C11_sends_on_transceivers_with_sender collaboratorsInOrder connectionWithFingerprint
      transportSendrecvRecvonly mediaWithFingerprint rfl (by decide)⟩

/-! ## Secure-session activation: the working set of SSRC candidates -/

theorem mapGet_mapSet_self {β : Type} (m : List (Nat × β)) (k : Nat) (v : β) :
    mapGet (mapSet m k v) k = some v := by
  induction m with
  | nil => simp [mapSet, mapGet]
  | cons kv rest ih =>
    obtain ⟨k0, v0⟩ := kv
    by_cases h : k0 = k
    · simp [mapSet, mapGet, h]
    · simp [mapSet, mapGet, h, ih]

theorem mapGet_mapSet_of_ne {β : Type} (m : List (Nat × β)) (k k1 : Nat) (v : β)
    (hne : k1 ≠ k) : mapGet (mapSet m k v) k1 = mapGet m k1 := by
  induction m with
  | nil =>
    have hne2 : ¬ (k = k1) := fun h => hne h.symm
    simp [mapSet, mapGet, hne2]
  | cons kv rest ih =>
    obtain ⟨k0, v0⟩ := kv
    by_cases h : k0 = k
    · subst h
      have hne2 : ¬ (k0 = k1) := fun h => hne h.symm
      simp [mapSet, mapGet, hne2]
    · by_cases h1 : k0 = k1
      · subst h1
        simp [mapSet, mapGet, h]
      · simp [mapSet, mapGet, h, h1, ih]

theorem keys_mapSet {β : Type} (m : List (Nat × β)) (k : Nat) (v : β) :
    (mapSet m k v).map Prod.fst
      = if k ∈ m.map Prod.fst then m.map Prod.fst else m.map Prod.fst ++ [k] := by
  induction m with
  | nil => simp [mapSet]
  | cons kv rest ih =>
    obtain ⟨k0, v0⟩ := kv
    by_cases h : k0 = k
    · subst h
      simp [mapSet]
    · have h2 : ¬ (k = k0) := fun e => h e.symm
      simp only [mapSet, h, if_false, List.map_cons, ih, List.mem_cons, h2, false_or]
      split <;> simp

theorem nodup_keys_mapSet {β : Type} (m : List (Nat × β)) (k : Nat) (v : β)
    (h : (m.map Prod.fst).Nodup) : ((mapSet m k v).map Prod.fst).Nodup := by
  rw [keys_mapSet]
  split
  · exact h
  · rename_i hk
    exact List.Nodup.append h (List.nodup_singleton k) (by simpa using hk)

theorem scanSSRC_cons (codecType : RTPCodecType) (hct : codecType ≠ 0) (attr : Attribute)
    (rest : List Attribute) (m : List (Nat × IncomingTrack)) :
    scanSSRC codecType (attr :: rest) m
      = match attributeCandidate codecType attr with
        | none => scanSSRC codecType rest m
        | some (ssrc, incoming) =>
          if suppliesLabelAndID codecType attr = true then mapSet m ssrc incoming
          else scanSSRC codecType rest (mapSet m ssrc incoming) := by
  by_cases hk : attr.Key = "ssrc"
  · cases hp : parseUint ((stringsSplit attr.Value).headD "") with
    | none =>
      simp only [scanSSRC, attributeCandidate, hct, hk, hp, if_true, if_false]
    | some ssrc =>
      simp only [scanSSRC, attributeCandidate, suppliesLabelAndID, hct, hk, hp, if_true,
        if_false, decide_eq_true_eq]
  · simp [scanSSRC, attributeCandidate, hct, hk]

theorem attributeCandidate_fields (codecType : RTPCodecType) (attr : Attribute)
    (k : Nat) (incoming : IncomingTrack)
    (h : attributeCandidate codecType attr = some (k, incoming)) :
    incoming.ssrc = k ∧ incoming.kind = codecType ∧ attr.Key = "ssrc"
      ∧ parseUint ((stringsSplit attr.Value).headD "") = some k := by
  by_cases hk : attr.Key = "ssrc"
  · cases hp : parseUint ((stringsSplit attr.Value).headD "") with
    | none =>
      simp only [attributeCandidate, hk, hp, if_true] at h
      exact absurd h (by simp)
    | some ssrc =>
      simp only [attributeCandidate, hk, hp, if_true, Option.some.injEq,
        Prod.mk.injEq] at h
      obtain ⟨h1, h2⟩ := h
      subst h1
      rw [← h2]
      exact ⟨rfl, rfl, hk, rfl⟩
  · simp only [attributeCandidate, hk, if_false] at h
    exact absurd h (by simp)

theorem suppliesLabelAndID_false_of_none (codecType : RTPCodecType) (attr : Attribute)
    (h : attributeCandidate codecType attr = none) :
    suppliesLabelAndID codecType attr = false := by
  simp [suppliesLabelAndID, h]

theorem scanSSRC_nodup_keys (codecType : RTPCodecType) (hct : codecType ≠ 0)
    (attrs : List Attribute) :
    ∀ m : List (Nat × IncomingTrack), (m.map Prod.fst).Nodup →
      ((scanSSRC codecType attrs m).map Prod.fst).Nodup := by
  induction attrs with
  | nil => intro m hm; simpa [scanSSRC] using hm
  | cons attr rest ih =>
    intro m hm
    rw [scanSSRC_cons codecType hct]
    cases hc : attributeCandidate codecType attr with
    | none => exact ih m hm
    | some e =>
      obtain ⟨k, incoming⟩ := e
      simp only []
      split
      · exact nodup_keys_mapSet m k incoming hm
      · exact ih _ (nodup_keys_mapSet m k incoming hm)

theorem scanSSRC_mem (codecType : RTPCodecType) (hct : codecType ≠ 0)
    (attrs : List Attribute) :
    ∀ (m : List (Nat × IncomingTrack)) (e : Nat × IncomingTrack),
      e ∈ scanSSRC codecType attrs m →
      e ∈ m ∨ ∃ attr ∈ attrs, attributeCandidate codecType attr = some e := by
  induction attrs with
  | nil => intro m e he; exact Or.inl (by simpa [scanSSRC] using he)
  | cons attr rest ih =>
    intro m e he
    rw [scanSSRC_cons codecType hct] at he
    cases hc : attributeCandidate codecType attr with
    | none =>
      rw [hc] at he
      rcases ih m e he with h | ⟨a, ha, hca⟩
      · exact Or.inl h
      · exact Or.inr ⟨a, List.mem_cons_of_mem _ ha, hca⟩
    | some e0 =>
      obtain ⟨k, incoming⟩ := e0
      rw [hc] at he
      simp only [] at he
      have hset : ∀ x, x ∈ mapSet m k incoming →
          x ∈ m ∨ ∃ a ∈ attr :: rest, attributeCandidate codecType a = some x := by
        intro x hx
        rcases mem_of_mem_mapSet m k incoming x hx with h | h
        · exact Or.inr ⟨attr, List.mem_cons_self _ _, by rw [hc, h]⟩
        · exact Or.inl h
      split at he
      · exact hset e he
      · rcases ih _ e he with h | ⟨a, ha, hca⟩
        · exact hset e h
        · exact Or.inr ⟨a, List.mem_cons_of_mem _ ha, hca⟩

theorem scanSSRC_stops (codecType : RTPCodecType) (hct : codecType ≠ 0)
    (pre : List Attribute) (a : Attribute) (post : List Attribute)
    (ha : suppliesLabelAndID codecType a = true) :
    ∀ m : List (Nat × IncomingTrack),
      scanSSRC codecType (pre ++ a :: post) m = scanSSRC codecType (pre ++ [a]) m := by
  induction pre with
  | nil =>
    intro m
    simp only [List.nil_append]
    rw [scanSSRC_cons codecType hct, scanSSRC_cons codecType hct]
    cases hc : attributeCandidate codecType a with
    | none =>
      rw [suppliesLabelAndID_false_of_none codecType a hc] at ha
      exact absurd ha (by simp)
    | some e => simp [ha]
  | cons x rest ih =>
    intro m
    simp only [List.cons_append]
    rw [scanSSRC_cons codecType hct, scanSSRC_cons codecType hct]
    cases hc : attributeCandidate codecType x with
    | none => exact ih m
    | some e =>
      simp only []
      split
      · rfl
      · exact ih _

theorem scanSSRC_get_untouched (codecType : RTPCodecType) (hct : codecType ≠ 0) (k : Nat)
    (attrs : List Attribute)
    (hk : ∀ x ∈ attrs, ∀ inc : IncomingTrack,
      attributeCandidate codecType x ≠ some (k, inc)) :
    ∀ m : List (Nat × IncomingTrack),
      mapGet (scanSSRC codecType attrs m) k = mapGet m k := by
  induction attrs with
  | nil => intro m; simp [scanSSRC]
  | cons x rest ih =>
    intro m
    have ih2 := ih (fun y hy => hk y (List.mem_cons_of_mem _ hy))
    rw [scanSSRC_cons codecType hct]
    cases hc : attributeCandidate codecType x with
    | none => exact ih2 m
    | some e =>
      obtain ⟨k0, incoming⟩ := e
      have hne : k ≠ k0 := by
        intro h
        subst h
        exact hk x (List.mem_cons_self _ _) incoming hc
      simp only []
      split
      · exact mapGet_mapSet_of_ne m k0 k incoming hne
      · rw [ih2, mapGet_mapSet_of_ne m k0 k incoming hne]

theorem scanSSRC_last_wins (codecType : RTPCodecType) (hct : codecType ≠ 0)
    (pre : List Attribute) (a : Attribute) (post : List Attribute) (k : Nat)
    (incoming : IncomingTrack)
    (hpre : ∀ x ∈ pre, suppliesLabelAndID codecType x = false)
    (ha : attributeCandidate codecType a = some (k, incoming))
    (hpost : ∀ x ∈ post, ∀ inc : IncomingTrack,
      attributeCandidate codecType x ≠ some (k, inc)) :
    ∀ m : List (Nat × IncomingTrack),
      mapGet (scanSSRC codecType (pre ++ a :: post) m) k = some incoming := by
  induction pre with
  | nil =>
    intro m
    simp only [List.nil_append]
    rw [scanSSRC_cons codecType hct, ha]
    simp only []
    split
    · exact mapGet_mapSet_self m k incoming
    · rw [scanSSRC_get_untouched codecType hct k post hpost]
      exact mapGet_mapSet_self m k incoming
  | cons x rest ih =>
    intro m
    have ih2 := ih (fun y hy => hpre y (List.mem_cons_of_mem _ hy))
    have hx := hpre x (List.mem_cons_self _ _)
    simp only [List.cons_append]
    rw [scanSSRC_cons codecType hct]
    cases hc : attributeCandidate codecType x with
    | none => exact ih2 m
    | some e =>
      simp only [hx]
      exact ih2 _

/-- C20 (as stated, refuted): in `mediaLabelThenPlain` the first attribute for SSRC 1111
carries the label "stream1" and the later attribute for SSRC 1111 supplies neither label
nor id, yet the candidate kept for SSRC 1111 has the empty label of the later attribute:
the first attribute did not win. -/
theorem C20_later_attribute_overwrites :
    attributeCandidate 1 { Key := "ssrc", Value := "1111 msid:stream1 " }
        = some (1111, { kind := 1, label := "stream1", id := "", ssrc := 1111 })
    ∧ suppliesLabelAndID 1 { Key := "ssrc", Value := "1111 cname:x" } = false
    ∧ scanSSRC (NewRTPCodecType mediaLabelThenPlain.Media) mediaLabelThenPlain.Attributes []
        = [(1111, { kind := 1, label := "", id := "", ssrc := 1111 })] := by
  decide

/-- C20 (amended): for every remote media description of a known kind, the working set
built by `openSRTP` has at most one candidate per SSRC; each candidate has the kind of the
media description and is the one read from some "ssrc" attribute whose first
space-separated token parses to the candidate's SSRC; the candidate kept for an SSRC is
the one read from the last scanned attribute for that SSRC (each scanned attribute for an
SSRC overwrites the earlier one); and scanning stops at the first attribute that
supplies a non-empty label and a non-empty id, so that no attribute after it
contributes. -/
theorem C20_working_set (media : MediaDescription)
    (hkind : NewRTPCodecType media.Media ≠ 0) :
    ((scanSSRC (NewRTPCodecType media.Media) media.Attributes []).map Prod.fst).Nodup
    ∧ (∀ e ∈ scanSSRC (NewRTPCodecType media.Media) media.Attributes [],
        e.2.ssrc = e.1 ∧ e.2.kind = NewRTPCodecType media.Media
        ∧ ∃ attr ∈ media.Attributes, attr.Key = "ssrc"
            ∧ parseUint ((stringsSplit attr.Value).headD "") = some e.1
            ∧ attributeCandidate (NewRTPCodecType media.Media) attr = some e)
    ∧ (∀ (pre : List Attribute) (a : Attribute) (post : List Attribute) (k : Nat)
        (incoming : IncomingTrack),
        media.Attributes = pre ++ a :: post →
        (∀ x ∈ pre, suppliesLabelAndID (NewRTPCodecType media.Media) x = false) →
        attributeCandidate (NewRTPCodecType media.Media) a = some (k, incoming) →
        (∀ x ∈ post,
          (attributeCandidate (NewRTPCodecType media.Media) x).map Prod.fst ≠ some k) →
        mapGet (scanSSRC (NewRTPCodecType media.Media) media.Attributes []) k
          = some incoming)
    ∧ (∀ (pre : List Attribute) (a : Attribute) (post : List Attribute),
        media.Attributes = pre ++ a :: post →
        suppliesLabelAndID (NewRTPCodecType media.Media) a = true →
        scanSSRC (NewRTPCodecType media.Media) media.Attributes []
          = scanSSRC (NewRTPCodecType media.Media) (pre ++ [a]) []) := by
  refine ⟨?_, ?_, ?_, ?_⟩
  · exact scanSSRC_nodup_keys _ hkind _ [] (by simp)
  · intro e he
    rcases scanSSRC_mem _ hkind _ [] e he with h | ⟨attr, hattr, hc⟩
    · exact absurd h (by simp)
    · obtain ⟨k, incoming⟩ := e
      obtain ⟨h1, h2, h3, h4⟩ := attributeCandidate_fields _ attr k incoming hc
      exact ⟨h1, h2, attr, hattr, h3, h4, hc⟩
  · intro pre a post k incoming hattrs hpre ha hpost
    rw [hattrs]
    refine scanSSRC_last_wins _ hkind pre a post k incoming hpre ha ?_ []
    intro x hx inc hc
    exact hpost x hx (by rw [hc]; rfl)
  · intro pre a post hattrs ha
    rw [hattrs]
    exact scanSSRC_stops _ hkind pre a post ha []

/-- C20 (amended), at a concrete input: in `mediaPlainThenMsid` the second attribute for
SSRC 1111 replaces the plain first one and ends the scan. -/
theorem C20_working_set_witness :
    NewRTPCodecType mediaPlainThenMsid.Media ≠ 0
    ∧ mapGet (scanSSRC (NewRTPCodecType mediaPlainThenMsid.Media)
          mediaPlainThenMsid.Attributes []) 1111
        = some { kind := 1, label := "stream1", id := "track1", ssrc := 1111 }
    ∧ scanSSRC (NewRTPCodecType mediaPlainThenMsid.Media) mediaPlainThenMsid.Attributes []
        = scanSSRC (NewRTPCodecType mediaPlainThenMsid.Media)
            ([{ Key := "ssrc", Value := "1111 cname:a" }]
              ++ [{ Key := "ssrc", Value := "1111 msid:stream1 track1" }]) [] :=
  ⟨by decide,
    (C20_working_set mediaPlainThenMsid (by decide)).2.2.1
      [{ Key := "ssrc", Value := "1111 cname:a" }]
      { Key := "ssrc", Value := "1111 msid:stream1 track1" }
      [{ Key := "ssrc", Value := "2222 cname:b" }] 1111
      { kind := 1, label := "stream1", id := "track1", ssrc := 1111 }
      rfl (by decide) (by decide) (by decide),
    (C20_working_set mediaPlainThenMsid (by decide)).2.2.2
      [{ Key := "ssrc", Value := "1111 cname:a" }]
      { Key := "ssrc", Value := "1111 msid:stream1 track1" }
      [{ Key := "ssrc", Value := "2222 cname:b" }] rfl (by decide)⟩

/-! ## Secure-session activation: matching candidates to transceivers -/

theorem mapDelete_cons {β : Type} (k0 : Nat) (v0 : β) (rest : List (Nat × β)) (k : Nat) :
    mapDelete ((k0, v0) :: rest) k
      = if k0 = k then mapDelete rest k else (k0, v0) :: mapDelete rest k := by
  by_cases h : k0 = k
  · simp [mapDelete, List.filter_cons, h]
  · simp [mapDelete, List.filter_cons, h]

theorem mapGet_mapDelete_of_ne {β : Type} (m : List (Nat × β)) (k k1 : Nat)
    (hne : k1 ≠ k) : mapGet (mapDelete m k) k1 = mapGet m k1 := by
  induction m with
  | nil => rfl
  | cons kv rest ih =>
    obtain ⟨k0, v0⟩ := kv
    rw [mapDelete_cons]
    by_cases h : k0 = k
    · subst h
      have h1 : ¬ (k0 = k1) := fun e => hne e.symm
      simp only [if_true, mapGet, h1, if_false]
      exact ih
    · by_cases h1 : k0 = k1
      · subst h1
        simp only [h, if_false, mapGet, if_true]
      · simp only [h, if_false, mapGet, h1]
        exact ih

theorem mapGet_of_mem {β : Type} (m : List (Nat × β)) (hkeys : (m.map Prod.fst).Nodup)
    (k : Nat) (v : β) (h : (k, v) ∈ m) : mapGet m k = some v := by
  induction m with
  | nil => exact absurd h (by simp)
  | cons kv rest ih =>
    obtain ⟨k0, v0⟩ := kv
    simp only [List.map_cons, List.nodup_cons, List.mem_map, not_exists, not_and] at hkeys
    simp only [List.mem_cons, Prod.mk.injEq] at h
    rcases h with ⟨h1, h2⟩ | h
    · simp [mapGet, h1, h2]
    · have hne : ¬ (k0 = k) := by
        intro e
        exact hkeys.1 (k, v) h e.symm
      simp [mapGet, hne, ih hkeys.2 h]

theorem matchTransceiver_none (kind : RTPCodecType) (trs : List RTPTransceiver)
    (h : matchTransceiver kind trs = none) : ∀ t ∈ trs, ¬ canReceive kind t := by
  induction trs with
  | nil => intro t ht; exact absurd ht (by simp)
  | cons t0 rest ih =>
    unfold matchTransceiver at h
    split at h
    · rename_i hskip
      split at h
      · rename_i hnone
        intro t ht
        rcases List.mem_cons.1 ht with h1 | h1
        · subst h1
          intro hc
          rcases hskip with h2 | h2 | h2
          · exact h2 hc.1.symm
          · rcases hc.2.1 with h3 | h3
            · exact h2.1 h3
            · exact h2.2 h3
          · exact hc.2.2 h2
        · exact ih hnone t h1
      · exact absurd h (by simp)
    · exact absurd h (by simp)

theorem matchTransceiver_some (kind : RTPCodecType) (trs : List RTPTransceiver) :
    ∀ (t : RTPTransceiver) (left : List RTPTransceiver),
      matchTransceiver kind trs = some (t, left) →
      ∃ pre post, trs = pre ++ t :: post ∧ left = pre ++ post ∧ canReceive kind t
        ∧ ∀ x ∈ pre, ¬ canReceive kind x := by
  induction trs with
  | nil => intro t left h; exact absurd h (by simp [matchTransceiver])
  | cons t0 rest ih =>
    intro t left h
    unfold matchTransceiver at h
    split at h
    · rename_i hskip
      split at h
      · exact absurd h (by simp)
      · rename_i found left0 hsome
        simp only [Option.some.injEq, Prod.mk.injEq] at h
        obtain ⟨pre, post, h1, h2, h3, h4⟩ := ih found left0 hsome
        refine ⟨t0 :: pre, post, ?_, ?_, ?_, ?_⟩
        · rw [h1, ← h.1]; rfl
        · rw [← h.2, h2]; rfl
        · rw [← h.1]; exact h3
        · intro x hx
          rcases List.mem_cons.1 hx with hx1 | hx1
          · subst hx1
            intro hc
            rcases hskip with h5 | h5 | h5
            · exact h5 hc.1.symm
            · rcases hc.2.1 with h6 | h6
              · exact h5.1 h6
              · exact h5.2 h6
            · exact hc.2.2 h5
          · exact h4 x hx1
    · rename_i hskip
      simp only [Option.some.injEq, Prod.mk.injEq] at h
      refine ⟨[], rest, ?_, ?_, ?_, ?_⟩
      · rw [← h.1]; rfl
      · rw [← h.2]; rfl
      · rw [← h.1]
        simp only [not_or, not_and, Decidable.not_not] at hskip
        refine ⟨hskip.1.symm, ?_, hskip.2.2⟩
        by_cases hd : t0.Direction = RTPTransceiverDirection.Recvonly
        · exact Or.inl hd
        · exact Or.inr (hskip.2.1 hd)
      · intro x hx; exact absurd hx (by simp)

theorem matchIncoming_calls (visit : List (Nat × IncomingTrack)) :
    ∀ (cur : List (Nat × IncomingTrack)) (trs : List RTPTransceiver),
      (matchIncoming visit cur trs).2.2
        = (matchedPairs visit cur trs).map
            (fun p => Effect.startReceiver p.1.2 p.2.Receiver) := by
  induction visit with
  | nil => intro cur trs; rfl
  | cons e rest ih =>
    intro cur trs
    obtain ⟨ssrc, incoming⟩ := e
    simp only [matchIncoming, matchedPairs]
    split
    · exact ih _ _
    · simp [ih]

theorem matchIncoming_transceivers (visit : List (Nat × IncomingTrack)) :
    ∀ (cur : List (Nat × IncomingTrack)) (trs : List RTPTransceiver),
      ((matchedPairs visit cur trs).map Prod.snd
        ++ (matchIncoming visit cur trs).2.1).Perm trs := by
  induction visit with
  | nil => intro cur trs; simp [matchIncoming, matchedPairs]
  | cons e rest ih =>
    intro cur trs
    obtain ⟨ssrc, incoming⟩ := e
    simp only [matchIncoming, matchedPairs]
    split
    · exact ih _ _
    · rename_i t left hsome
      obtain ⟨pre, post, h1, h2, _, _⟩ := matchTransceiver_some _ trs t left hsome
      simp only [List.map_cons, List.cons_append]
      have hperm := (ih (mapDelete cur ssrc) left).cons t
      refine hperm.trans ?_
      rw [h1, h2]
      exact List.perm_middle.symm

theorem matchIncoming_left (visit : List (Nat × IncomingTrack)) :
    ∀ (cur : List (Nat × IncomingTrack)) (trs : List RTPTransceiver),
      (matchIncoming visit cur trs).1
        = cur.filter
            (fun e => decide (e.1 ∉ (matchedPairs visit cur trs).map (fun p => p.1.1))) := by
  induction visit with
  | nil => intro cur trs; simp [matchIncoming, matchedPairs]
  | cons e rest ih =>
    intro cur trs
    obtain ⟨ssrc, incoming⟩ := e
    cases hm : matchTransceiver (((mapGet cur ssrc).map (fun i => i.kind)).getD 0) trs with
    | none =>
      simp only [matchIncoming, matchedPairs, hm]
      exact ih _ _
    | some r =>
      obtain ⟨t, left⟩ := r
      simp only [matchIncoming, matchedPairs, hm]
      rw [ih, mapDelete, List.filter_filter]
      apply List.filter_congr
      intro x _
      by_cases hx : x.1 = ssrc <;> simp [hx]

theorem firstMatch_matchedPairs (visit : List (Nat × IncomingTrack)) :
    ∀ (cur : List (Nat × IncomingTrack)) (trs : List RTPTransceiver),
      (visit.map Prod.fst).Nodup → (∀ e ∈ visit, mapGet cur e.1 = some e.2) →
      FirstMatch visit trs (matchedPairs visit cur trs) := by
  induction visit with
  | nil => intro cur trs _ _; exact FirstMatch.done trs
  | cons e rest ih =>
    intro cur trs hnd hget
    obtain ⟨ssrc, incoming⟩ := e
    have hkind : ((mapGet cur ssrc).map (fun i => i.kind)).getD 0 = incoming.kind := by
      rw [hget (ssrc, incoming) (List.mem_cons_self _ _)]
      rfl
    simp only [List.map_cons, List.nodup_cons] at hnd
    simp only [matchedPairs, hkind]
    split
    · rename_i hnone
      exact FirstMatch.pass (ssrc, incoming) rest trs _
        (matchTransceiver_none _ trs hnone)
        (ih cur trs hnd.2 (fun e he => hget e (List.mem_cons_of_mem _ he)))
    · rename_i t left hsome
      obtain ⟨pre, post, h1, h2, h3, h4⟩ := matchTransceiver_some _ trs t left hsome
      rw [h1, h2]
      refine FirstMatch.pair (ssrc, incoming) rest pre t post _ h4 h3 ?_
      refine ih (mapDelete cur ssrc) (pre ++ post) hnd.2 ?_
      intro e he
      have hne : e.1 ≠ ssrc := by
        intro heq
        exact hnd.1 (by rw [← heq]; exact List.mem_map_of_mem Prod.fst he)
      rw [mapGet_mapDelete_of_ne cur ssrc e.1 hne]
      exact hget e (List.mem_cons_of_mem _ he)

theorem FirstMatch.sublist {visit : List (Nat × IncomingTrack)}
    {trs : List RTPTransceiver} {pairs : List ((Nat × IncomingTrack) × RTPTransceiver)}
    (h : FirstMatch visit trs pairs) : (pairs.map Prod.fst).Sublist visit := by
  induction h with
  | done trs => simp
  | pass e rest trs pairs _ _ ih => exact ih.trans (List.sublist_cons_self e rest)
  | pair e rest pre t post pairs _ _ _ ih =>
    simp only [List.map_cons]
    exact ih.cons₂ e

theorem FirstMatch.canReceive_of_mem {visit : List (Nat × IncomingTrack)}
    {trs : List RTPTransceiver} {pairs : List ((Nat × IncomingTrack) × RTPTransceiver)}
    (h : FirstMatch visit trs pairs) : ∀ p ∈ pairs, canReceive p.1.2.kind p.2 := by
  induction h with
  | done trs => intro p hp; exact absurd hp (by simp)
  | pass e rest trs pairs _ _ ih => exact ih
  | pair e rest pre t post pairs _ hcan _ ih =>
    intro p hp
    rcases List.mem_cons.1 hp with h1 | h1
    · rw [h1]; exact hcan
    · exact ih p h1

/-- C17: for every working set of candidates (a map: at most one entry per SSRC) visited
in any order and every list of local transceivers, the receivers started by the matching
loop of `openSRTP` are those of a list of pairs (candidate, transceiver) that is the
first-fit matching: each candidate is paired with the first transceiver still under
consideration whose kind is the candidate's, whose direction is recvonly or sendrecv and
whose Receiver is not nil, or with none when there is no such transceiver. Every pair is
made of a candidate of the working set and a transceiver with these three properties, no
SSRC occurs in two pairs, and the paired transceivers together with the transceivers left
are the local transceivers, each taken once. -/
theorem C17_matching_is_first_fit (order m : List (Nat × IncomingTrack))
    (trs : List RTPTransceiver) (horder : order.Perm m)
    (hkeys : (m.map Prod.fst).Nodup) :
    (matchIncoming order m trs).2.2
        = (matchedPairs order m trs).map
            (fun p => Effect.startReceiver p.1.2 p.2.Receiver)
    ∧ FirstMatch order trs (matchedPairs order m trs)
    ∧ (∀ p ∈ matchedPairs order m trs,
        p.1 ∈ m ∧ p.2.kind = p.1.2.kind
        ∧ (p.2.Direction = RTPTransceiverDirection.Recvonly
            ∨ p.2.Direction = RTPTransceiverDirection.Sendrecv)
        ∧ p.2.Receiver ≠ none)
    ∧ ((matchedPairs order m trs).map (fun p => p.1.1)).Nodup
    ∧ ((matchedPairs order m trs).map Prod.snd
        ++ (matchIncoming order m trs).2.1).Perm trs := by
  have hnd : (order.map Prod.fst).Nodup := ((horder.map Prod.fst).nodup_iff).2 hkeys
  have hget : ∀ e ∈ order, mapGet m e.1 = some e.2 := by
    intro e he
    exact mapGet_of_mem m hkeys e.1 e.2 (horder.subset he)
  have hfirst := firstMatch_matchedPairs order m trs hnd hget
  refine ⟨matchIncoming_calls order m trs, hfirst, ?_, ?_,
    matchIncoming_transceivers order m trs⟩
  · intro p hp
    have hsub := hfirst.sublist.subset (List.mem_map_of_mem Prod.fst hp)
    exact ⟨horder.subset hsub, hfirst.canReceive_of_mem p hp⟩
  · have hsub := (hfirst.sublist.map Prod.fst)
    rw [List.map_map] at hsub
    exact hsub.nodup hnd

/-- C17, at a concrete input: two audio candidates visited from the last to the first and
two local audio transceivers that can receive. -/
theorem C17_matching_is_first_fit_witness :
    candidatesTwoReversed.Perm candidatesTwo
    ∧ (candidatesTwo.map Prod.fst).Nodup
    ∧ (matchIncoming candidatesTwoReversed candidatesTwo
          [transceiverRecvonly, transceiverSendrecv]).2.2
        = (matchedPairs candidatesTwoReversed candidatesTwo
            [transceiverRecvonly, transceiverSendrecv]).map
            (fun p => Effect.startReceiver p.1.2 p.2.Receiver)
    ∧ FirstMatch candidatesTwoReversed [transceiverRecvonly, transceiverSendrecv]
        (matchedPairs candidatesTwoReversed candidatesTwo
          [transceiverRecvonly, transceiverSendrecv]) :=
  ⟨List.Perm.swap _ _ _, by decide,
    (C17_matching_is_first_fit candidatesTwoReversed candidatesTwo
      [transceiverRecvonly, transceiverSendrecv] (List.Perm.swap _ _ _) (by decide)).1,
    (C17_matching_is_first_fit candidatesTwoReversed candidatesTwo
      [transceiverRecvonly, transceiverSendrecv] (List.Perm.swap _ _ _) (by decide)).2.1⟩

/-! ## Secure-session activation: unmatched candidates -/

theorem addTransceiverCalls_addPlanB (c : Collaborators)
    (visit : List (Nat × IncomingTrack)) :
    ∀ pc : PeerConnection,
      addTransceiverCalls (addPlanBTransceivers c visit pc).2
        = visit.map
            (fun e => Effect.addTransceiver e.2.kind RTPTransceiverDirection.Sendrecv) := by
  induction visit with
  | nil => intro pc; rfl
  | cons e rest ih =>
    intro pc
    obtain ⟨ssrc, incoming⟩ := e
    simp only [addPlanBTransceivers]
    split
    · simp [addTransceiverCalls, ih]
    · simp [addTransceiverCalls, ih]

theorem addPlanB_all_created (c : Collaborators)
    (hok : ∀ (existing : List RTPTransceiver) (kind : RTPCodecType)
      (direction : RTPTransceiverDirection),
      ∃ tr, c.AddTransceiver existing kind direction = GoResult.ok tr)
    (visit : List (Nat × IncomingTrack)) :
    ∀ pc : PeerConnection,
      ∃ created : List RTPTransceiver, created.length = visit.length
        ∧ (addPlanBTransceivers c visit pc).1
            = { pc with rtpTransceivers := pc.rtpTransceivers ++ created }
        ∧ (addPlanBTransceivers c visit pc).2 = planBCalls visit created := by
  induction visit with
  | nil =>
    intro pc
    exact ⟨[], rfl, by simp [addPlanBTransceivers], rfl⟩
  | cons e rest ih =>
    intro pc
    obtain ⟨ssrc, incoming⟩ := e
    obtain ⟨tr, htr⟩ := hok pc.rtpTransceivers incoming.kind
      RTPTransceiverDirection.Sendrecv
    obtain ⟨created, h1, h2, h3⟩ :=
      ih { pc with rtpTransceivers := pc.rtpTransceivers ++ [tr] }
    refine ⟨tr :: created, by simp [h1], ?_, ?_⟩
    · simp only [addPlanBTransceivers, htr, h2]
      simp
    · simp only [addPlanBTransceivers, htr, h3, planBCalls]

theorem addPlanB_none_created (c : Collaborators)
    (hfail : ∀ (existing : List RTPTransceiver) (kind : RTPCodecType)
      (direction : RTPTransceiverDirection),
      ∃ msg, c.AddTransceiver existing kind direction = GoResult.error msg)
    (visit : List (Nat × IncomingTrack)) :
    ∀ pc : PeerConnection,
      addPlanBTransceivers c visit pc
        = (pc, visit.map
            (fun e => Effect.addTransceiver e.2.kind RTPTransceiverDirection.Sendrecv)) := by
  induction visit with
  | nil => intro pc; rfl
  | cons e rest ih =>
    intro pc
    obtain ⟨ssrc, incoming⟩ := e
    obtain ⟨msg, hmsg⟩ := hfail pc.rtpTransceivers incoming.kind
      RTPTransceiverDirection.Sendrecv
    simp only [addPlanBTransceivers, hmsg, ih pc, List.map_cons]

theorem planBResults_length (c : Collaborators) (visit : List (Nat × IncomingTrack)) :
    ∀ existing : List RTPTransceiver,
      (planBResults c visit existing).length = visit.length := by
  induction visit with
  | nil => intro existing; rfl
  | cons e rest ih =>
    intro existing
    simp only [planBResults]
    split <;> simp [ih]

theorem addPlanB_per_call (c : Collaborators) (visit : List (Nat × IncomingTrack)) :
    ∀ pc : PeerConnection,
      (addPlanBTransceivers c visit pc).1
          = { pc with rtpTransceivers := pc.rtpTransceivers
                ++ createdTransceivers (planBResults c visit pc.rtpTransceivers) }
      ∧ (addPlanBTransceivers c visit pc).2
          = (List.zipWith planBCallsFor visit
              (planBResults c visit pc.rtpTransceivers)).flatten := by
  induction visit with
  | nil =>
    intro pc
    simp [addPlanBTransceivers, planBResults, createdTransceivers]
  | cons e rest ih =>
    intro pc
    obtain ⟨ssrc, incoming⟩ := e
    cases hr : c.AddTransceiver pc.rtpTransceivers incoming.kind
        RTPTransceiverDirection.Sendrecv with
    | error msg =>
      obtain ⟨h1, h2⟩ := ih pc
      simp only [addPlanBTransceivers, planBResults, hr, createdTransceivers,
        List.zipWith_cons_cons, List.flatten_cons, planBCallsFor, h1, h2]
      simp
    | ok tr =>
      obtain ⟨h1, h2⟩ := ih { pc with rtpTransceivers := pc.rtpTransceivers ++ [tr] }
      simp only [addPlanBTransceivers, planBResults, hr, createdTransceivers,
        List.zipWith_cons_cons, List.flatten_cons, planBCallsFor, h1, h2]
      refine ⟨?_, rfl⟩
      simp

/-- C18 (as stated, refuted): under Plan-B semantics, with the candidates SSRC 1111 and
SSRC 2222 and one local transceiver that can receive, SSRC 2222 is left unmatched; when
the `AddTransceiver` call made for it returns an error, the connection is unchanged (no
transceiver is created) and no Receiver is started with SSRC 2222. -/
theorem C18_no_transceiver_when_AddTransceiver_fails :
    connectionPlanB.remoteIsPlanB = true
    ∧ unmatchedCandidates collaboratorsInOrder connectionPlanB mediaTwoSSRC
        = [(2222, { kind := 1, label := "", id := "", ssrc := 2222 })]
    ∧ transportTwoSSRC.openSRTP collaboratorsInOrder connectionPlanB
        = some (connectionPlanB,
            [Effect.startReceiver { kind := 1, label := "", id := "", ssrc := 1111 }
                (some { receiver := 28 }),
              Effect.addTransceiver 1 RTPTransceiverDirection.Sendrecv]) := by
  decide

/-- C18 (amended): after the matching loop of `openSRTP`, the candidates left unmatched
are the candidates of the working set whose SSRC is in no pair. When the remote is taken
as Plan-B (semantics PlanB, or UnifiedPlanWithFallback with a Plan-B remote description),
`AddTransceiver` is called exactly once for each unmatched candidate, in the order of the
visits, with the candidate's kind and the direction sendrecv, on the transceivers the
connection has at that moment. Call by call: when the call for a candidate succeeds, the
transceiver it returns is added to the connection and the Receiver of that transceiver is
started with the candidate; when it fails, no transceiver is added and no Receiver is
started for that candidate. So the transceivers added are those of the successful calls:
one per unmatched candidate if every call succeeds, none if every call fails. When the
remote is not taken as Plan-B (semantics UnifiedPlan, or the fallback without a Plan-B
remote description), the connection is unchanged and no call is made for an unmatched
candidate. -/
theorem C18_unmatched_candidates (c : Collaborators) (pc : PeerConnection)
    (t : MediaTransport) (media : MediaDescription)
    (hmedia : t.getRemoteMediaDescription = some (some media))
    (hrange : ∀ m : List (Nat × IncomingTrack), (c.rangeOrder m).Perm m) :
    (pc.SDPSemantics = SDPSemantics.PlanB → pc.remoteIsPlanB = true)
    ∧ (pc.SDPSemantics = SDPSemantics.UnifiedPlan → pc.remoteIsPlanB = false)
    ∧ (pc.SDPSemantics = SDPSemantics.UnifiedPlanWithFallback →
        pc.remoteIsPlanB = pc.remoteDescriptionIsPlanB)
    ∧ unmatchedCandidates c pc media
        = (workingSet media).filter
            (fun e => decide (e.1 ∉
              (matchedPairs (c.rangeOrder (workingSet media)) (workingSet media)
                pc.rtpTransceivers).map (fun p => p.1.1)))
    ∧ (c.rangeOrder (unmatchedCandidates c pc media)).Perm (unmatchedCandidates c pc media)
    ∧ (pc.remoteIsPlanB = false → t.openSRTP c pc = some (pc, matchingCalls c pc media))
    ∧ (pc.remoteIsPlanB = true →
        ∃ (pc1 : PeerConnection) (planB : List Effect),
          t.openSRTP c pc = some (pc1, matchingCalls c pc media ++ planB)
          ∧ addTransceiverCalls planB
              = (c.rangeOrder (unmatchedCandidates c pc media)).map
                  (fun e => Effect.addTransceiver e.2.kind RTPTransceiverDirection.Sendrecv)
          ∧ ((∀ (existing : List RTPTransceiver) (kind : RTPCodecType)
                (direction : RTPTransceiverDirection),
                ∃ tr, c.AddTransceiver existing kind direction = GoResult.ok tr) →
              ∃ created : List RTPTransceiver,
                created.length = (unmatchedCandidates c pc media).length
                ∧ pc1 = { pc with rtpTransceivers := pc.rtpTransceivers ++ created }
                ∧ planB = planBCalls (c.rangeOrder (unmatchedCandidates c pc media)) created)
          ∧ ((∀ (existing : List RTPTransceiver) (kind : RTPCodecType)
                (direction : RTPTransceiverDirection),
                ∃ msg, c.AddTransceiver existing kind direction = GoResult.error msg) →
              pc1 = pc
              ∧ planB = (c.rangeOrder (unmatchedCandidates c pc media)).map
                  (fun e =>
                    Effect.addTransceiver e.2.kind RTPTransceiverDirection.Sendrecv))
          ∧ (planBResults c (c.rangeOrder (unmatchedCandidates c pc media))
                pc.rtpTransceivers).length
              = (unmatchedCandidates c pc media).length
          ∧ planB
              = (List.zipWith planBCallsFor (c.rangeOrder (unmatchedCandidates c pc media))
                  (planBResults c (c.rangeOrder (unmatchedCandidates c pc media))
                    pc.rtpTransceivers)).flatten
          ∧ pc1.rtpTransceivers
              = pc.rtpTransceivers
                  ++ createdTransceivers
                      (planBResults c (c.rangeOrder (unmatchedCandidates c pc media))
                        pc.rtpTransceivers)
          ∧ pc1
              = { pc with rtpTransceivers := pc1.rtpTransceivers }) := by
  refine ⟨?_, ?_, ?_, ?_, hrange _, ?_, ?_⟩
  · intro h; simp [PeerConnection.remoteIsPlanB, h]
  · intro h; simp [PeerConnection.remoteIsPlanB, h]
  · intro h; simp [PeerConnection.remoteIsPlanB, h]
  · exact matchIncoming_left _ _ _
  · intro h
    rw [openSRTP_eq c pc t media hmedia]
    simp [h, matchingCalls, workingSet]
  · intro h
    refine ⟨(addPlanBTransceivers c (c.rangeOrder (unmatchedCandidates c pc media)) pc).1,
      (addPlanBTransceivers c (c.rangeOrder (unmatchedCandidates c pc media)) pc).2,
      ?_, addTransceiverCalls_addPlanB c _ pc, ?_, ?_,
      by rw [planBResults_length, (hrange _).length_eq],
      (addPlanB_per_call c _ pc).2,
      by rw [(addPlanB_per_call c _ pc).1],
      by rw [(addPlanB_per_call c _ pc).1]⟩
    · rw [openSRTP_eq c pc t media hmedia]
      simp [h, matchingCalls, unmatchedCandidates, workingSet]
    · intro hok
      obtain ⟨created, h1, h2, h3⟩ := addPlanB_all_created c hok
        (c.rangeOrder (unmatchedCandidates c pc media)) pc
      exact ⟨created, by rw [h1, (hrange _).length_eq], h2, h3⟩
    · intro hfail
      have h1 := addPlanB_none_created c hfail
        (c.rangeOrder (unmatchedCandidates c pc media)) pc
      rw [h1]
      exact ⟨rfl, rfl⟩

/-- C18 (amended), at concrete inputs. Two candidates, one matching local transceiver,
Plan-B semantics and an `AddTransceiver` that succeeds give one match and one new
transceiver, whose Receiver is started with the unmatched SSRC 2222. With no matching
local transceiver and an `AddTransceiver` that succeeds once and then fails, one
transceiver is added and its Receiver started with SSRC 1111, and nothing is added or
started for SSRC 2222. -/
theorem C18_unmatched_candidates_witness :
    transportTwoSSRC.getRemoteMediaDescription = some (some mediaTwoSSRC)
    ∧ connectionPlanB.remoteIsPlanB = true
    ∧ transportTwoSSRC.openSRTP collaboratorsAdding connectionPlanB
        = some ({ connectionPlanB with
                  rtpTransceivers := [transceiverRecvonly,
                    { kind := 1, Direction := RTPTransceiverDirection.Sendrecv,
                      Receiver := some { receiver := 101 } }] },
            [Effect.startReceiver { kind := 1, label := "", id := "", ssrc := 1111 }
                (some { receiver := 28 }),
              Effect.addTransceiver 1 RTPTransceiverDirection.Sendrecv,
              Effect.startReceiver { kind := 1, label := "", id := "", ssrc := 2222 }
                (some { receiver := 101 })])
    ∧ (∃ (pc1 : PeerConnection) (planB : List Effect),
        transportTwoSSRC.openSRTP collaboratorsAdding connectionPlanB
          = some (pc1, matchingCalls collaboratorsAdding connectionPlanB mediaTwoSSRC
              ++ planB)
        ∧ addTransceiverCalls planB
          = (collaboratorsAdding.rangeOrder
              (unmatchedCandidates collaboratorsAdding connectionPlanB mediaTwoSSRC)).map
              (fun e => Effect.addTransceiver e.2.kind RTPTransceiverDirection.Sendrecv))
    ∧ transportTwoSSRC.openSRTP collaboratorsAddingOnce connectionPlanBNoReceiver
        = some ({ connectionPlanBNoReceiver with
                  rtpTransceivers := [transceiverSenderStopFails,
                    { kind := 1, Direction := RTPTransceiverDirection.Sendrecv,
                      Receiver := some { receiver := 101 } }] },
            [Effect.addTransceiver 1 RTPTransceiverDirection.Sendrecv,
              Effect.startReceiver { kind := 1, label := "", id := "", ssrc := 1111 }
                (some { receiver := 101 }),
              Effect.addTransceiver 1 RTPTransceiverDirection.Sendrecv])
    ∧ planBResults collaboratorsAddingOnce candidatesTwo
          connectionPlanBNoReceiver.rtpTransceivers
        = [GoResult.ok { kind := 1, Direction := RTPTransceiverDirection.Sendrecv,
                         Receiver := some { receiver := 101 } },
            GoResult.error "too many transceivers"]
    ∧ (∃ (pc1 : PeerConnection) (planB : List Effect),
        transportTwoSSRC.openSRTP collaboratorsAddingOnce connectionPlanBNoReceiver
          = some (pc1,
              matchingCalls collaboratorsAddingOnce connectionPlanBNoReceiver mediaTwoSSRC
                ++ planB)
        ∧ planB
          = (List.zipWith planBCallsFor
              (collaboratorsAddingOnce.rangeOrder
                (unmatchedCandidates collaboratorsAddingOnce connectionPlanBNoReceiver
                  mediaTwoSSRC))
              (planBResults collaboratorsAddingOnce
                (collaboratorsAddingOnce.rangeOrder
                  (unmatchedCandidates collaboratorsAddingOnce connectionPlanBNoReceiver
                    mediaTwoSSRC))
                connectionPlanBNoReceiver.rtpTransceivers)).flatten) :=
  ⟨rfl, by decide, by decide,
    match (C18_unmatched_candidates collaboratorsAdding connectionPlanB transportTwoSSRC
      mediaTwoSSRC rfl (fun m => List.Perm.refl m)).2.2.2.2.2.2 (by decide) with
    | ⟨pc1, planB, h1, h2, _⟩ => ⟨pc1, planB, h1, h2⟩,
    by decide, by decide,
    match (C18_unmatched_candidates collaboratorsAddingOnce connectionPlanBNoReceiver
      transportTwoSSRC mediaTwoSSRC rfl (fun m => List.Perm.refl m)).2.2.2.2.2.2
        (by decide) with
    | ⟨pc1, planB, h1, _, _, _, _, h6, _⟩ => ⟨pc1, planB, h1, h6⟩⟩

/-! ## Assigning a sending track -/

/-- C23: `RTPTransceiver.setSendingTrack` called with a nil track returns an error and
leaves the transceiver as it is. On a transceiver that has a Sender, called with a track:
for the direction recvonly it returns nil with the direction sendrecv, for inactive it
returns nil with the direction sendonly, and for sendrecv or sendonly it returns an error
with the direction unchanged; in every one of these cases, the failing ones included, the
Sender's track is the new track and nothing else has changed. Hence the call succeeds
exactly when the direction was recvonly or inactive. -/
theorem C23_setSendingTrack (t : RTPTransceiver) :
    t.setSendingTrack none = some (t, some "track must not be nil")
    ∧ (∀ (sender : RTPSender) (track : Track), t.Sender = some sender →
        (t.Direction = RTPTransceiverDirection.Recvonly →
          t.setSendingTrack (some track)
            = some ({ t with Sender := some { sender with track := some track },
                             Direction := RTPTransceiverDirection.Sendrecv }, none))
        ∧ (t.Direction = RTPTransceiverDirection.Inactive →
          t.setSendingTrack (some track)
            = some ({ t with Sender := some { sender with track := some track },
                             Direction := RTPTransceiverDirection.Sendonly }, none))
        ∧ (t.Direction = RTPTransceiverDirection.Sendrecv
            ∨ t.Direction = RTPTransceiverDirection.Sendonly →
          t.setSendingTrack (some track)
            = some ({ t with Sender := some { sender with track := some track } },
                some "invalid state change in RTPTransceiver.setSending"))
        ∧ (∃ (t1 : RTPTransceiver) (err : Option String),
            t.setSendingTrack (some track) = some (t1, err)
            ∧ (err = none ↔ t.Direction = RTPTransceiverDirection.Recvonly
                ∨ t.Direction = RTPTransceiverDirection.Inactive))) := by
  refine ⟨rfl, ?_⟩
  intro sender track hs
  have hrecv : t.Direction = RTPTransceiverDirection.Recvonly →
      t.setSendingTrack (some track)
        = some ({ t with Sender := some { sender with track := some track },
                         Direction := RTPTransceiverDirection.Sendrecv }, none) := by
    intro hd
    simp [RTPTransceiver.setSendingTrack, hs, hd]
  have hinact : t.Direction = RTPTransceiverDirection.Inactive →
      t.setSendingTrack (some track)
        = some ({ t with Sender := some { sender with track := some track },
                         Direction := RTPTransceiverDirection.Sendonly }, none) := by
    intro hd
    simp [RTPTransceiver.setSendingTrack, hs, hd]
  have hsend : t.Direction = RTPTransceiverDirection.Sendrecv
        ∨ t.Direction = RTPTransceiverDirection.Sendonly →
      t.setSendingTrack (some track)
        = some ({ t with Sender := some { sender with track := some track } },
            some "invalid state change in RTPTransceiver.setSending") := by
    intro hd
    rcases hd with hd | hd <;> simp [RTPTransceiver.setSendingTrack, hs, hd]
  refine ⟨hrecv, hinact, hsend, ?_⟩
  cases hd : t.Direction with
  | Sendrecv =>
    rw [hd] at hsend
    exact ⟨_, _, hsend (Or.inl rfl), by simp⟩
  | Sendonly =>
    rw [hd] at hsend
    exact ⟨_, _, hsend (Or.inr rfl), by simp⟩
  | Recvonly =>
    rw [hd] at hrecv
    exact ⟨_, _, hrecv rfl, by simp⟩
  | Inactive =>
    rw [hd] at hinact
    exact ⟨_, _, hinact rfl, by simp⟩

/-- C23, at concrete inputs: a recvonly transceiver becomes sendrecv; on a sendrecv
transceiver the call fails while the Sender's track is replaced. -/
theorem C23_setSendingTrack_witness :
    transceiverRecvonlyNoTrack.setSendingTrack (some { ssrc := 5, payloadType := 96 })
        = some ({ transceiverRecvonlyNoTrack with
                    Sender := some { sender := 17,
                                     track := some { ssrc := 5, payloadType := 96 } },
                    Direction := RTPTransceiverDirection.Sendrecv }, none)
    ∧ transceiverSendrecv.setSendingTrack (some { ssrc := 5, payloadType := 96 })
        = some ({ transceiverSendrecv with
                    Sender := some { sender := 7,
                                     track := some { ssrc := 5, payloadType := 96 } } },
            some "invalid state change in RTPTransceiver.setSending") :=
  ⟨((C23_setSendingTrack transceiverRecvonlyNoTrack).2 { sender := 17 }
      { ssrc := 5, payloadType := 96 } rfl).1 rfl,
    ((C23_setSendingTrack transceiverSendrecv).2
      { sender := 7, track := some { ssrc := 2222, payloadType := 96 } }
      { ssrc := 5, payloadType := 96 } rfl).2.2.1 (Or.inl rfl)⟩

/-! ## Well-formed fingerprints -/

theorem splitChars_of_count_zero (sep : Char) (cs : List Char) (h : cs.count sep = 0) :
    splitChars sep cs = [cs] := by
  induction cs with
  | nil => rfl
  | cons c rest ih =>
    by_cases hc : c = sep
    · subst hc
      simp at h
    · have hne : ¬ ((c == sep) = true) := by simpa using hc
      rw [List.count_cons] at h
      simp only [hne, if_false, Nat.add_zero] at h
      simp [splitChars, hc, ih h]

theorem splitChars_of_count_one (sep : Char) (cs : List Char) (h : cs.count sep = 1) :
    ∃ a v : List Char, splitChars sep cs = [a, v] ∧ cs = a ++ sep :: v
      ∧ sep ∉ a ∧ sep ∉ v := by
  induction cs with
  | nil => simp at h
  | cons c rest ih =>
    by_cases hc : c = sep
    · subst hc
      have h0 : rest.count c = 0 := by simpa using h
      refine ⟨[], rest, ?_, rfl, by simp, ?_⟩
      · simp [splitChars, splitChars_of_count_zero c rest h0]
      · exact List.count_eq_zero.1 h0
    · have hne : ¬ ((c == sep) = true) := by simpa using hc
      rw [List.count_cons] at h
      simp only [hne, if_false, Nat.add_zero] at h
      obtain ⟨a, v, h1, h2, h3, h4⟩ := ih h
      refine ⟨c :: a, v, ?_, ?_, ?_, h4⟩
      · simp [splitChars, hc, h1]
      · rw [h2]; rfl
      · intro hmem
        rcases List.mem_cons.1 hmem with h5 | h5
        · exact hc h5.symm
        · exact h3 h5

theorem stringsSplit_of_one_space (f : String) (h : f.data.count ' ' = 1) :
    ∃ a v : String, stringsSplit f = [a, v] ∧ a ++ " " ++ v = f
      ∧ ' ' ∉ a.data ∧ ' ' ∉ v.data := by
  obtain ⟨a, v, h1, h2, h3, h4⟩ := splitChars_of_count_one ' ' f.data h
  refine ⟨String.mk a, String.mk v, ?_, ?_, h3, h4⟩
  · simp [stringsSplit, h1]
  · apply String.ext
    simp only [String.data_append]
    rw [h2]
    simp

/-- C21: for every fingerprint value `f` that contains exactly one space there are the
text `a` before the space and the text `v` after it (neither contains a space, and
`a ++ " " ++ v = f`) such that `dtlsParamsFromSession`, `dtlsParamsFromMediaSection` and
`transportGetDtlsParams` succeed whenever `f` is the fingerprint they read, and return
exactly one fingerprint, with Algorithm `a` and Value `v`. -/
theorem C21_one_space_fingerprint_decomposes (f : String) (h : f.data.count ' ' = 1) :
    ∃ a v : String, a ++ " " ++ v = f ∧ ' ' ∉ a.data ∧ ' ' ∉ v.data
      ∧ (∀ s : SessionDescription, s.Attribute "fingerprint" = (f, true) →
          dtlsParamsFromSession s
            = GoResult.ok
                { Role := dtlsRoleFromSetupAttribute (s.Attribute "setup").1,
                  Fingerprints := [{ Algorithm := a, Value := v }] })
      ∧ (∀ m : MediaDescription, m.Attribute "fingerprint" = (f, true) →
          dtlsParamsFromMediaSection m
            = GoResult.ok
                { Role := dtlsRoleFromSetupAttribute (m.Attribute "setup").1,
                  Fingerprints := [{ Algorithm := a, Value := v }] })
      ∧ (∀ (pc : PeerConnection) (t : MediaTransport) (sess : SessionDescription)
          (media : MediaDescription),
          pc.currentLocalDescription = some sess →
          t.getLocalMediaDescription = some (some media) →
          (media.Attribute "fingerprint" = (f, true)
            ∨ ((media.Attribute "fingerprint").2 = false
                ∧ sess.Attribute "fingerprint" = (f, true))) →
          transportGetDtlsParams pc t
            = some (GoResult.ok
                { Role := t.getDtlsRole,
                  Fingerprints := [{ Algorithm := a, Value := v }] })) := by
  obtain ⟨a, v, hsplit, hcat, ha, hv⟩ := stringsSplit_of_one_space f h
  refine ⟨a, v, hcat, ha, hv, ?_, ?_, ?_⟩
  · intro s hs
    simp [dtlsParamsFromSession, hs, dtlsParamsFromFingerprint_two _ f a v hsplit]
  · intro m hm
    simp [dtlsParamsFromMediaSection, hm, dtlsParamsFromFingerprint_two _ f a v hsplit]
  · intro pc t sess media hsess hmedia hf
    rcases hf with hf | ⟨hf1, hf2⟩
    · rw [transportGetDtlsParams_media_level pc t sess media f hsess hmedia hf,
        dtlsParamsFromFingerprint_two _ f a v hsplit]
    · rw [transportGetDtlsParams_session_level pc t sess media f hsess hmedia hf1 hf2,
        dtlsParamsFromFingerprint_two _ f a v hsplit]

/-- C21, at a concrete input: the fingerprint "sha-256 AB:CD". -/
theorem C21_one_space_fingerprint_decomposes_witness :
    "sha-256 AB:CD".data.count ' ' = 1
    ∧ ∃ a v : String, a ++ " " ++ v = "sha-256 AB:CD" ∧ ' ' ∉ a.data ∧ ' ' ∉ v.data
      ∧ (∀ s : SessionDescription, s.Attribute "fingerprint" = ("sha-256 AB:CD", true) →
          dtlsParamsFromSession s
            = GoResult.ok
                { Role := dtlsRoleFromSetupAttribute (s.Attribute "setup").1,
                  Fingerprints := [{ Algorithm := a, Value := v }] }) :=
  ⟨by decide,
    match C21_one_space_fingerprint_decomposes "sha-256 AB:CD" (by decide) with
    | ⟨a, v, h1, h2, h3, h4, _⟩ => ⟨a, v, h1, h2, h3, h4⟩⟩

/-! ## The gathering invariant under the events a transport emits -/

theorem onStateChangeHdlr_states (iceTransport : Nat) (state : ICEGathererState)
    (evt : Event) (h : evt ∈ onStateChangeHdlr iceTransport state) :
    evt = Event.iceGatheringEvent iceTransport ICEGatheringState.Gathering
      ∨ evt = Event.iceGatheringEvent iceTransport ICEGatheringState.Complete := by
  cases state <;> simp [onStateChangeHdlr] at h
  · exact Or.inl h
  · exact Or.inr h

/-! ## The aggregate gathering state against the reports of the transports -/

theorem lastReported_cons (known : List (Nat × ICEGatheringState))
    (e : Nat × ICEGatheringState) (rest : List (Nat × ICEGatheringState))
    (transport : Nat) :
    lastReported known (e :: rest) transport
      = lastReported (mapSet known e.1 e.2) rest transport := by
  unfold lastReported
  by_cases he : e.1 = transport
  · have hf : (e :: rest).filter (fun x => decide (x.1 = transport))
        = e :: rest.filter (fun x => decide (x.1 = transport)) := by
      simp [List.filter_cons, he]
    rw [hf]
    cases hr : rest.filter (fun x => decide (x.1 = transport)) with
    | nil =>
      simp only [List.getLast?_singleton, List.getLast?_nil]
      rw [← he, mapGet_mapSet_self]
    | cons x xs =>
      rw [List.getLast?_cons_cons]
      cases hl : (x :: xs).getLast? with
      | none => simp at hl
      | some y => rfl
  · have hf : (e :: rest).filter (fun x => decide (x.1 = transport))
        = rest.filter (fun x => decide (x.1 = transport)) := by
      simp [List.filter_cons, he]
    rw [hf]
    cases hr : rest.filter (fun x => decide (x.1 = transport)) with
    | nil =>
      simp only [List.getLast?_nil]
      rw [mapGet_mapSet_of_ne known e.1 transport e.2 (fun h => he h.symm)]
    | cons x xs =>
      cases hl : (x :: xs).getLast? with
      | none => simp at hl
      | some y => rfl

theorem startEventLoop_gathering_reports (evs : List (Nat × ICEGatheringState)) :
    ∀ (pc : PeerConnection) (transport : Nat),
      mapGet (pc.startEventLoop (gatheringEvents evs)).1.iceGatheringStates transport
        = lastReported pc.iceGatheringStates evs transport := by
  induction evs with
  | nil =>
    intro pc transport
    simp [gatheringEvents, PeerConnection.startEventLoop, lastReported]
  | cons e rest ih =>
    intro pc transport
    rw [startEventLoop_gathering_cons, ih, gatherStep_states, lastReported_cons]

theorem startEventLoop_gathering_nodup_keys (evs : List (Nat × ICEGatheringState)) :
    ∀ pc : PeerConnection, (pc.iceGatheringStates.map Prod.fst).Nodup →
      ((pc.startEventLoop (gatheringEvents evs)).1.iceGatheringStates.map Prod.fst).Nodup := by
  induction evs with
  | nil =>
    intro pc h
    simpa [gatheringEvents, PeerConnection.startEventLoop] using h
  | cons e rest ih =>
    intro pc h
    rw [startEventLoop_gathering_cons]
    apply ih
    rw [gatherStep_states]
    exact nodup_keys_mapSet _ _ _ h

theorem mem_of_mapGet {β : Type} (m : List (Nat × β)) (k : Nat) (v : β)
    (h : mapGet m k = some v) : (k, v) ∈ m := by
  induction m with
  | nil => simp [mapGet] at h
  | cons kv rest ih =>
    obtain ⟨k0, v0⟩ := kv
    by_cases hk : k0 = k
    · simp only [mapGet, hk, if_true, Option.some.injEq] at h
      simp [hk, h]
    · simp only [mapGet, hk, if_false] at h
      exact List.mem_cons_of_mem _ (ih h)

theorem allTransportsComplete_iff_reports (pc : PeerConnection)
    (evs : List (Nat × ICEGatheringState))
    (hkeys : (pc.iceGatheringStates.map Prod.fst).Nodup) :
    (pc.startEventLoop (gatheringEvents evs)).1.allTransportsComplete
      ↔ ∀ (transport : Nat) (state : ICEGatheringState),
          lastReported pc.iceGatheringStates evs transport = some state →
          state = ICEGatheringState.Complete := by
  have hnd := startEventLoop_gathering_nodup_keys evs pc hkeys
  unfold PeerConnection.allTransportsComplete
  constructor
  · intro hall transport state hlast
    rw [← startEventLoop_gathering_reports] at hlast
    exact hall (transport, state) (mem_of_mapGet _ _ _ hlast)
  · intro hall kv hkv
    obtain ⟨k, v⟩ := kv
    have hget := mapGet_of_mem _ hnd k v hkv
    rw [startEventLoop_gathering_reports] at hget
    exact hall k v hget

/-- C1: for every sequence of gathering-state events with the states a transport emits
(Gathering or Complete), over any transports, processed one at a time by the dispatch loop
from a connection whose map of gathering states has one entry per transport and whose
aggregate is Complete only if every tracked transport is Complete (a new connection in
particular), after each event (after every non-empty initial part of the sequence) the
aggregate gathering state is Complete if and only if the state most recently reported for
every tracked transport is Complete, where the most recent report is read off the events
themselves; and the connection's map holds, for every transport, exactly that most recent
report. -/
theorem C1_aggregate_complete_iff_reports_complete (pc : PeerConnection)
    (evs pre : List (Nat × ICEGatheringState))
    (hkeys : (pc.iceGatheringStates.map Prod.fst).Nodup)
    (hinv : pc.iceGatheringState = ICEGatheringState.Complete → pc.allTransportsComplete)
    (hstates : ∀ e ∈ evs,
      e.2 = ICEGatheringState.Gathering ∨ e.2 = ICEGatheringState.Complete)
    (hpre : pre <+: evs) (hnonempty : pre ≠ []) :
    ((pc.startEventLoop (gatheringEvents pre)).1.iceGatheringState
          = ICEGatheringState.Complete
        ↔ ∀ (transport : Nat) (state : ICEGatheringState),
            lastReported pc.iceGatheringStates pre transport = some state →
            state = ICEGatheringState.Complete)
    ∧ (∀ transport : Nat,
        mapGet (pc.startEventLoop (gatheringEvents pre)).1.iceGatheringStates transport
          = lastReported pc.iceGatheringStates pre transport) := by
  have hne : ∀ e ∈ pre, e.2 ≠ ICEGatheringState.New := by
    intro e he hnew
    rcases hstates e (hpre.subset he) with h | h <;> rw [h] at hnew <;> cases hnew
  refine ⟨?_, startEventLoop_gathering_reports pre pc⟩
  exact (startEventLoop_gathering_iff pre pc hinv hne hnonempty).trans
    (allTransportsComplete_iff_reports pc pre hkeys)

/-- C1, at a concrete input: from a new connection, transports 1 and 2 report Gathering
and transport 2 reports Complete: the last report of transport 1 is Gathering and the
aggregate is not Complete; when transport 1 then reports Complete, the aggregate is
Complete. -/
theorem C1_aggregate_complete_iff_reports_complete_witness :
    (∀ e ∈ [(1, ICEGatheringState.Gathering), (2, ICEGatheringState.Gathering),
        (2, ICEGatheringState.Complete), (1, ICEGatheringState.Complete)],
      e.2 = ICEGatheringState.Gathering ∨ e.2 = ICEGatheringState.Complete)
    ∧ lastReported [] [(1, ICEGatheringState.Gathering), (2, ICEGatheringState.Gathering),
        (2, ICEGatheringState.Complete)] 1 = some ICEGatheringState.Gathering
    ∧ (({} : PeerConnection).startEventLoop
          (gatheringEvents [(1, ICEGatheringState.Gathering),
            (2, ICEGatheringState.Gathering),
            (2, ICEGatheringState.Complete)])).1.iceGatheringState
        ≠ ICEGatheringState.Complete
    ∧ (({} : PeerConnection).startEventLoop
          (gatheringEvents [(1, ICEGatheringState.Gathering),
            (2, ICEGatheringState.Gathering), (2, ICEGatheringState.Complete),
            (1, ICEGatheringState.Complete)])).1.iceGatheringState
        = ICEGatheringState.Complete :=
  ⟨by decide, by decide,
    fun h => ICEGatheringState.noConfusion
      ((C1_aggregate_complete_iff_reports_complete {}
        [(1, ICEGatheringState.Gathering), (2, ICEGatheringState.Gathering),
          (2, ICEGatheringState.Complete), (1, ICEGatheringState.Complete)]
        [(1, ICEGatheringState.Gathering), (2, ICEGatheringState.Gathering),
          (2, ICEGatheringState.Complete)]
        (by decide) (by decide) (by decide)
        ⟨[(1, ICEGatheringState.Complete)], rfl⟩ (by decide)).1.1 h 1
        ICEGatheringState.Gathering (by decide)),
    (C1_aggregate_complete_iff_reports_complete {}
      [(1, ICEGatheringState.Gathering), (2, ICEGatheringState.Gathering),
        (2, ICEGatheringState.Complete), (1, ICEGatheringState.Complete)]
      [(1, ICEGatheringState.Gathering), (2, ICEGatheringState.Gathering),
        (2, ICEGatheringState.Complete), (1, ICEGatheringState.Complete)]
      (by decide) (by decide) (by decide) (List.prefix_refl _) (by decide)).1.2
      ((allTransportsComplete_iff_reports {} _ (by decide)).1 (by decide))⟩

/-- C22: the gatherer callback wired by `transportInitDtls` sends only gathering events
with the state Gathering or Complete. For every sequence of gathering-state events with
these states, processed by the dispatch loop from a connection whose map of gathering
states has one entry per transport and whose aggregate is Complete only if every tracked
transport is Complete, at the start and after every event: if the aggregate is Complete
then the state most recently reported for every tracked transport, read off the events
themselves, is Complete; and after every Complete event after which the most recent
report of every tracked transport is Complete, the aggregate is Complete. The
connection's map holds, for every transport, exactly that most recent report. -/
theorem C22_gathering_invariant (pc : PeerConnection)
    (evs pre : List (Nat × ICEGatheringState))
    (hkeys : (pc.iceGatheringStates.map Prod.fst).Nodup)
    (hinv : pc.iceGatheringState = ICEGatheringState.Complete → pc.allTransportsComplete)
    (hstates : ∀ e ∈ evs,
      e.2 = ICEGatheringState.Gathering ∨ e.2 = ICEGatheringState.Complete)
    (hpre : pre <+: evs) :
    ((pc.startEventLoop (gatheringEvents pre)).1.iceGatheringState
          = ICEGatheringState.Complete →
        ∀ (transport : Nat) (state : ICEGatheringState),
          lastReported pc.iceGatheringStates pre transport = some state →
          state = ICEGatheringState.Complete)
    ∧ (∀ (earlier : List (Nat × ICEGatheringState)) (reporting : Nat),
        pre = earlier ++ [(reporting, ICEGatheringState.Complete)] →
        (∀ (transport : Nat) (state : ICEGatheringState),
          lastReported pc.iceGatheringStates pre transport = some state →
          state = ICEGatheringState.Complete) →
        (pc.startEventLoop (gatheringEvents pre)).1.iceGatheringState
          = ICEGatheringState.Complete)
    ∧ (∀ transport : Nat,
        mapGet (pc.startEventLoop (gatheringEvents pre)).1.iceGatheringStates transport
          = lastReported pc.iceGatheringStates pre transport)
    ∧ (∀ (iceTransport : Nat) (state : ICEGathererState) (evt : Event),
        evt ∈ onStateChangeHdlr iceTransport state →
        evt = Event.iceGatheringEvent iceTransport ICEGatheringState.Gathering
          ∨ evt = Event.iceGatheringEvent iceTransport ICEGatheringState.Complete) := by
  have hne : ∀ e ∈ pre, e.2 ≠ ICEGatheringState.New := by
    intro e he hnew
    rcases hstates e (hpre.subset he) with h | h <;> rw [h] at hnew <;> cases hnew
  have hreports := allTransportsComplete_iff_reports pc pre hkeys
  refine ⟨?_, ?_, startEventLoop_gathering_reports pre pc, onStateChangeHdlr_states⟩
  · intro hagg
    apply hreports.1
    by_cases hempty : pre = []
    · subst hempty
      exact hinv hagg
    · exact (startEventLoop_gathering_iff pre pc hinv hne hempty).1 hagg
  · intro earlier reporting hlast hall
    have hnonempty : pre ≠ [] := by
      rw [hlast]
      simp
    exact (startEventLoop_gathering_iff pre pc hinv hne hnonempty).2 (hreports.2 hall)

/-- C22, at a concrete input: from a connection whose aggregate is Gathering with two
transports tracked as Complete, transport 1 reports Gathering and then Complete, after
which the aggregate is Complete. -/
theorem C22_gathering_invariant_witness :
    (connectionReadyToComplete.iceGatheringStates.map Prod.fst).Nodup
    ∧ (connectionReadyToComplete.iceGatheringState = ICEGatheringState.Complete →
        connectionReadyToComplete.allTransportsComplete)
    ∧ (∀ e ∈ [(1, ICEGatheringState.Gathering), (1, ICEGatheringState.Complete)],
        e.2 = ICEGatheringState.Gathering ∨ e.2 = ICEGatheringState.Complete)
    ∧ (connectionReadyToComplete.startEventLoop
          (gatheringEvents [(1, ICEGatheringState.Gathering),
            (1, ICEGatheringState.Complete)])).1.iceGatheringState
        = ICEGatheringState.Complete :=
  ⟨by decide, by decide, by decide,
    (C22_gathering_invariant connectionReadyToComplete
      [(1, ICEGatheringState.Gathering), (1, ICEGatheringState.Complete)]
      [(1, ICEGatheringState.Gathering), (1, ICEGatheringState.Complete)]
      (by decide) (by decide) (by decide) (List.prefix_refl _)).2.1
      [(1, ICEGatheringState.Gathering)] 1 rfl
      ((allTransportsComplete_iff_reports connectionReadyToComplete _ (by decide)).1
        (by decide))⟩

end Webrtc
